import Mathlib

/-!
NextDrop Lab landing page script (`src/script.js`).

A shallow embedding of the controllers of `script.js` and the properties
checked against them.  DOM state is made explicit: every handler becomes a
function on the part of the page it reads and writes.
-/

namespace NextDrop

/-! ## Reveal observers (lines 292-309, 356-374, 438-455, 535-552 and 597-614)

The five observers differ only in the stagger interval (100 ms for step, testimonial
and pricing cards, 80 ms for benefit and tip cards).  The browser decides when the
callback runs and with which entries; here the callback is applied to the batches it
is given. -/

/-- An `IntersectionObserverEntry` as the callback reads it: `entry.target`, given by
the index of the card in its `NodeList`, and `entry.isIntersecting`. -/
structure ObserverEntry where
  target : Nat
  isIntersecting : Bool
  deriving DecidableEq, Repr

/-- A reveal observer together with a record of what its callback has done. -/
structure RevealObserver where
  /-- The observation targets, in the order of the `observe` calls. -/
  targets : List Nat
  /-- The `setTimeout` calls of the callback, oldest first: the target whose animation
  the timeout starts and the delay in milliseconds. -/
  scheduled : List (Nat × Nat)
  /-- The targets of the `observer.unobserve` calls, oldest first. -/
  unobserveCalls : List Nat
  deriving DecidableEq, Repr

/-- The loop `cards.forEach(card => { card.style.opacity = '0'; observer.observe(card); })`
on `n` cards, as far as the observer is concerned. -/
def observeCards (n : Nat) : RevealObserver :=
  { targets := List.range n
    scheduled := []
    unobserveCalls := [] }

/-- The body of the observer callback, `entries.forEach((entry, index) => { ... })`, from
position `index` on: an intersecting entry schedules the animation of its target after
`index * interval` ms and unobserves the target. -/
def revealEntries (interval : Nat) :
    Nat → List ObserverEntry → RevealObserver → RevealObserver
  | _, [], s => s
  | index, entry :: rest, s =>
    let s1 :=
      if entry.isIntersecting then
        { targets := s.targets.filter (fun t => t != entry.target)
          scheduled := s.scheduled ++ [(entry.target, index * interval)]
          unobserveCalls := s.unobserveCalls ++ [entry.target] }
      else s
    revealEntries interval (index + 1) rest s1

/-- The observer callback (for instance lines 292-304), called with one batch of entries. -/
def revealCallback (interval : Nat) (entries : List ObserverEntry)
    (s : RevealObserver) : RevealObserver :=
  revealEntries interval 0 entries s

/-- A sequence of callbacks, one for each batch of entries. -/
def revealCallbacks (interval : Nat) (batches : List (List ObserverEntry))
    (s : RevealObserver) : RevealObserver :=
  batches.foldl (fun acc entries => revealCallback interval entries acc) s

/-- How many timeouts the callback has scheduled for card `e`. -/
def timesScheduled (e : Nat) (s : RevealObserver) : Nat :=
  (s.scheduled.filter (fun x => x.1 == e)).length

/-- How many times the callback has called `unobserve` on card `e`. -/
def timesUnobserved (e : Nat) (s : RevealObserver) : Nat :=
  (s.unobserveCalls.filter (fun x => x == e)).length

/-- Whether card `e` is among the observation targets. -/
def isObserved (e : Nat) (s : RevealObserver) : Bool :=
  s.targets.contains e

/-- How many entries of one batch report card `e` as intersecting. -/
def intersectingIn (e : Nat) (entries : List ObserverEntry) : Nat :=
  (entries.filter (fun x => x.isIntersecting && x.target == e)).length

/-- How many entries of a sequence of batches report card `e` as intersecting. -/
def intersectingReports (e : Nat) (batches : List (List ObserverEntry)) : Nat :=
  (batches.map (intersectingIn e)).sum

/-- The condition on a sequence of batches under which the observers are one-shot:
every callback lists a card at most once, and only cards the observer still observes
when that callback starts. -/
def reportedWhileObserved (interval : Nat) :
    RevealObserver → List (List ObserverEntry) → Bool
  | _, [] => true
  | s, entries :: rest =>
    decide ((entries.map fun x => x.target).Nodup) &&
      entries.all (fun x => isObserved x.target s) &&
      reportedWhileObserved interval (revealCallback interval entries s) rest

/-! ## Carousel (`App.initSuccessStoriesCarousel`, lines 462-556) -/

/-- JavaScript's `%` on integer-valued numbers: the remainder takes the sign of the
dividend and is exact.  The values `0` and `-0`, which `===` does not tell apart, are
one value here. -/
def jsMod (a b : Int) : Int := Int.tmod a b

/-- How many times `a` is halved before it is below `2^53`, within `fuel` halvings. -/
def excessBits : Nat → Nat → Nat
  | 0, _ => 0
  | fuel + 1, a => if a < 9007199254740992 then 0 else excessBits fuel (a / 2) + 1

/-- The number an integer becomes as a JavaScript number, an IEEE 754 double: itself up
to magnitude `2^53`, beyond that the nearest multiple of the spacing `2^e` of doubles of
its size, ties going to the even significand.  Finite doubles are below `2^1024`, so
1024 halvings find `e`. -/
def toDouble (x : Int) : Int :=
  let a := x.natAbs
  if a ≤ 9007199254740992 then x
  else
    let e := excessBits 1024 a
    let q := a / 2 ^ e
    let r := a % 2 ^ e
    let up := decide (2 ^ e < 2 * r) || (decide (2 * r = 2 ^ e) && q % 2 == 1)
    Int.sign x * (((if up then q + 1 else q) * 2 ^ e : Nat) : Int)

/-- Inline style of a testimonial card: the properties `showSlide` and the reveal
timeout write. -/
structure CardStyle where
  opacity : String
  pointerEvents : String
  animation : String
  deriving DecidableEq, Repr

/-- Closure state of `initSuccessStoriesCarousel` together with the DOM it touches.
`pending` lists the handles of the auto-advance timeouts that are armed and have not
fired nor been cleared; each of them carries the callback
`() => showSlide(currentSlide + 1)`.  `nextHandle` is a handle not in use, which the
next auto-advance `setTimeout` returns.  `observer` is the reveal observer of lines
535-547 and `revealPending` lists the targets of its timeouts that have not fired yet
(they are never cleared). -/
structure Carousel where
  currentSlide : Int
  autoAdvanceTimer : Option Nat
  cards : List CardStyle
  dots : List Bool
  pending : List Nat
  nextHandle : Nat
  observer : RevealObserver
  revealPending : List Nat
  deriving DecidableEq, Repr

/-- The call `clearTimeout(h)`: a handle that is `undefined` or not pending is ignored. -/
def clearTimeout (h : Option Nat) (pending : List Nat) : List Nat :=
  match h with
  | none => pending
  | some t => pending.filter (fun u => u != t)

/-- The statement `autoAdvanceTimer = setTimeout(() => showSlide(currentSlide + 1), 6000)`. -/
def armAutoAdvance (s : Carousel) : Carousel :=
  { s with
    autoAdvanceTimer := some s.nextHandle
    pending := s.pending ++ [s.nextHandle]
    nextHandle := s.nextHandle + 1 }

/-- The closure `showSlide` (lines 476-496).  The sum `index + cards.length` of line 478
is a sum of JavaScript numbers, rounded by `toDouble`. -/
def showSlide (index : Int) (s : Carousel) : Carousel :=
  let currentSlide := jsMod (toDouble (index + s.cards.length)) s.cards.length
  let cards := s.cards.mapIdx fun i c =>
    { c with
      opacity := if (i : Int) = currentSlide then "1" else "0"
      pointerEvents := if (i : Int) = currentSlide then "auto" else "none" }
  let dots := s.dots.mapIdx fun i _ => decide ((i : Int) = currentSlide)
  armAutoAdvance
    { s with
      currentSlide := currentSlide
      cards := cards
      dots := dots
      pending := clearTimeout s.autoAdvanceTimer s.pending }

/-- The body of `App.initSuccessStoriesCarousel` for a document whose
`.testimonials-carousel` query gives `carousel` (present or not), with the given
testimonial cards and dots: `none` is the early `return` of line 469.  The loop of lines
549-552 hides every card and registers it with the reveal observer, then line 555
calls `showSlide(0)`. -/
def initSuccessStoriesCarousel (carousel : Bool) (cards : List CardStyle)
    (dots : List Bool) : Option Carousel :=
  if !carousel || cards.length == 0 then none
  else
    let s : Carousel :=
      { currentSlide := 0
        autoAdvanceTimer := none
        cards := cards.map fun c => { c with opacity := "0" }
        dots := dots
        pending := []
        nextHandle := 1
        observer := observeCards cards.length
        revealPending := [] }
    some (showSlide 0 s)

/-- The callback of a reveal timeout (lines 538-543) on the style of its target. -/
def revealTimeout (c : CardStyle) : CardStyle :=
  { c with animation := "fadeInUp 600ms ease-out forwards", opacity := "0" }

/-- Events the carousel's listeners, timers and observer react to. -/
inductive CarouselEvent where
  | prevClick
  | nextClick
  | dotClick (index : Nat)
  | timerFire (handle : Nat)
  | mouseenter
  | mouseleave
  /-- The browser calls the reveal observer's callback with a batch of entries. -/
  | observerCallback (entries : List ObserverEntry)
  /-- A reveal timeout scheduled for the card `target` fires. -/
  | revealTimerFire (target : Nat)
  deriving DecidableEq, Repr

/-- One event handled to completion.  `none` when the event cannot occur: a dot that
does not exist, a timeout that is not pending, or an entry whose target is not one of
the cards. -/
def carouselStep (s : Carousel) : CarouselEvent → Option Carousel
  | .prevClick => some (showSlide (toDouble (s.currentSlide - 1)) s)
  | .nextClick => some (showSlide (toDouble (s.currentSlide + 1)) s)
  | .dotClick index =>
      if index < s.dots.length then some (showSlide index s) else none
  | .timerFire handle =>
      if handle ∈ s.pending then
        let s1 := { s with pending := s.pending.filter (fun u => u != handle) }
        some (showSlide (toDouble (s1.currentSlide + 1)) s1)
      else none
  | .mouseenter => some { s with pending := clearTimeout s.autoAdvanceTimer s.pending }
  | .mouseleave => some (armAutoAdvance s)
  | .observerCallback entries =>
      if entries.all (fun x => x.target < s.cards.length) then
        let observer := revealCallback 100 entries s.observer
        some { s with
               observer := observer
               revealPending := s.revealPending ++
                 (observer.scheduled.drop s.observer.scheduled.length).map Prod.fst }
      else none
  | .revealTimerFire target =>
      if target ∈ s.revealPending then
        some { s with
               revealPending := s.revealPending.erase target
               cards := s.cards.mapIdx fun i c => if i = target then revealTimeout c else c }
      else none

/-- A finite sequence of events, handled one after the other. -/
def carouselRun (s : Carousel) : List CarouselEvent → Option Carousel
  | [] => some s
  | e :: es => (carouselStep s e).bind fun s1 => carouselRun s1 es

/-- The events whose handler calls `showSlide`. -/
def callsShowSlide : CarouselEvent → Bool
  | .prevClick => true
  | .nextClick => true
  | .dotClick _ => true
  | .timerFire _ => true
  | _ => false

/-- The property of a carousel state that every event keeps: the lists are as short as
a `NodeList` can be, the index is in range, the indexed card alone takes pointer
events, and every other card has opacity `'0'`. -/
def CarouselInv (s : Carousel) : Prop :=
  s.cards.length < 4294967296 ∧ s.dots.length < 4294967296 ∧
  0 ≤ s.currentSlide ∧ s.currentSlide < s.cards.length ∧
  ∀ (j : Nat) (c : CardStyle), s.cards[j]? = some c →
    ((c.pointerEvents = "auto" ↔ (j : Int) = s.currentSlide) ∧
     ((j : Int) ≠ s.currentSlide → c.opacity = "0"))

/-- The property `showSlide` establishes: the inline styles single out the indexed card. -/
def CarouselShown (s : Carousel) : Prop :=
  ∀ (j : Nat) (c : CardStyle), s.cards[j]? = some c →
    ((c.opacity = "1" ∧ c.pointerEvents = "auto") ↔ (j : Int) = s.currentSlide)

/-- Three cards and three dots as they are before the script runs. -/
def threeCards : List CardStyle :=
  [⟨"", "", ""⟩, ⟨"", "", ""⟩, ⟨"", "", ""⟩]

/-- The carousel right after `initSuccessStoriesCarousel` on three cards and three dots. -/
def carousel3 : Carousel :=
  { currentSlide := 0
    autoAdvanceTimer := some 1
    cards := [⟨"1", "auto", ""⟩, ⟨"0", "none", ""⟩, ⟨"0", "none", ""⟩]
    dots := [true, false, false]
    pending := [1]
    nextHandle := 2
    observer := observeCards 3
    revealPending := [] }

/-! ## DOM helpers -/

/-- The call `classList.remove(c)`. -/
def classListRemove (c : String) (classes : List String) : List String :=
  classes.filter (fun d => d != c)

/-- The call `classList.add(c)`: a token already present is not added again. -/
def classListAdd (c : String) (classes : List String) : List String :=
  if classes.contains c then classes else classes ++ [c]

/-! ## Mobile menu and product overlay (lines 82-145 and 380-430)

The two controllers share `document.body.style.overflow`. -/

/-- The part of the page the mobile menu and the product overlay read and write.
An overlay slot is `none` when `getElementById` finds no such element. -/
structure Page where
  /-- Whether `document.getElementById('mobile-menu-toggle')` is an element. -/
  menuToggle : Bool
  /-- Whether `document.getElementById('mobile-nav')` is an element. -/
  mobileNav : Bool
  /-- Attribute `aria-expanded` of the menu toggle. -/
  ariaExpanded : Option String
  /-- Class list of `#mobile-nav`. -/
  mobileNavClasses : List String
  /-- The flag `App.state.mobileMenuOpen`. -/
  mobileMenuOpen : Bool
  /-- The value of `document.body.style.overflow`. -/
  bodyOverflow : String
  /-- Class list of `#product-overlay`, `none` when the element is absent. -/
  productOverlay : Option (List String)
  /-- The `textContent` of `#overlay-product-name`. -/
  overlayProductName : Option String
  /-- The `textContent` of `#overlay-product-price`. -/
  overlayProductPrice : Option String
  /-- The `src` and `alt` of `#overlay-product-image`. -/
  overlayProductImage : Option (String × String)
  deriving DecidableEq, Repr

/-- The method `App.openMobileMenu` (lines 123-133). -/
def openMobileMenu (p : Page) : Page :=
  if p.menuToggle && p.mobileNav then
    { p with
      ariaExpanded := some "true"
      mobileNavClasses := classListAdd "active" p.mobileNavClasses
      mobileMenuOpen := true
      bodyOverflow := "hidden" }
  else p

/-- The method `App.closeMobileMenu` (lines 135-145). -/
def closeMobileMenu (p : Page) : Page :=
  if p.menuToggle && p.mobileNav then
    { p with
      ariaExpanded := some "false"
      mobileNavClasses := classListRemove "active" p.mobileNavClasses
      mobileMenuOpen := false
      bodyOverflow := "" }
  else p

/-- The method `App.toggleMobileMenu` (lines 115-121). -/
def toggleMobileMenu (p : Page) : Page :=
  if p.mobileMenuOpen then closeMobileMenu p else openMobileMenu p

/-- The click listener `setupMobileMenu` registers on `document` (lines 100-104); it is
registered only when both menu elements exist (line 86).  `insideHeader` is
`e.target.closest('.header')` being an element. -/
def documentClick (insideHeader : Bool) (p : Page) : Page :=
  if p.menuToggle && p.mobileNav then
    if !insideHeader then closeMobileMenu p else p
  else p

/-- A `.product-card` element as its click listener reads it: a field is `none` when
the attribute is missing or `querySelector` finds no such descendant. -/
structure ProductCard where
  /-- The value of `card.getAttribute('data-product-id')`. -/
  productId : Option String
  /-- The `textContent` of the `.product-name` descendant. -/
  productName : Option String
  /-- The `textContent` of the `.product-price` descendant. -/
  productPrice : Option String
  /-- The `src` of the `.product-image` descendant. -/
  productImage : Option String
  /-- The card lies inside an element of class `header`. -/
  insideHeader : Bool
  deriving DecidableEq, Repr

/-- The click listener of a product card (lines 388-403).  Reading a property of `null`
throws a `TypeError`, rendered as `Except.error`; the writes made before a throw are
not part of the error value. -/
def productCardClick (card : ProductCard) (p : Page) : Except String Page :=
  match card.productName with
  | none => .error "TypeError: card.querySelector('.product-name') is null"
  | some productName =>
  match card.productPrice with
  | none => .error "TypeError: card.querySelector('.product-price') is null"
  | some productPrice =>
  match card.productImage with
  | none => .error "TypeError: card.querySelector('.product-image') is null"
  | some productImage =>
  match p.overlayProductName with
  | none => .error "TypeError: document.getElementById('overlay-product-name') is null"
  | some _ =>
  match p.overlayProductPrice with
  | none => .error "TypeError: document.getElementById('overlay-product-price') is null"
  | some _ =>
  match p.overlayProductImage with
  | none => .error "TypeError: document.getElementById('overlay-product-image') is null"
  | some _ =>
  match p.productOverlay with
  | none => .error "TypeError: productOverlay is null"
  | some classes =>
    .ok { p with
          overlayProductName := some productName
          overlayProductPrice := some productPrice
          overlayProductImage := some (productImage, productName)
          productOverlay := some (classListAdd "active" classes)
          bodyOverflow := "hidden" }

/-- A click on a product card, dispatched: the card's listener runs first, then the
event bubbles to `document` and the listener of `setupMobileMenu` runs. -/
def clickProductCard (card : ProductCard) (p : Page) : Except String Page :=
  (productCardClick card p).map (documentClick card.insideHeader)

/-- The `keydown` listener of `initInteractiveAnimations` (lines 425-430). -/
def overlayKeydown (key : String) (p : Page) : Except String Page :=
  if key == "Escape" then
    match p.productOverlay with
    | none => .error "TypeError: productOverlay is null"
    | some classes =>
      if classes.contains "active" then
        .ok { p with
              productOverlay := some (classListRemove "active" classes)
              bodyOverflow := "" }
      else .ok p
  else .ok p

/-- A page with the menu toggle, the drawer, the overlay and its three slots, the menu
closed and the overlay hidden. -/
def fullPage : Page :=
  { menuToggle := true
    mobileNav := true
    ariaExpanded := some "false"
    mobileNavClasses := ["mobile-nav"]
    mobileMenuOpen := false
    bodyOverflow := ""
    productOverlay := some ["product-overlay"]
    overlayProductName := some ""
    overlayProductPrice := some ""
    overlayProductImage := some ("", "") }

/-- A product card of the store preview, outside the header. -/
def widgetCard : ProductCard :=
  { productId := some "1"
    productName := some "Widget"
    productPrice := some "$10"
    productImage := some "widget.png"
    insideHeader := false }

/-! ## Theme (lines 31-76) -/

/-- What the theme controller reads and writes. -/
structure ThemePage where
  /-- Class list of `document.body`. -/
  bodyClasses : List String
  /-- Whether `document.getElementById('theme-toggle')` is an element. -/
  themeToggle : Bool
  /-- Attribute `aria-pressed` of the theme toggle. -/
  ariaPressed : Option String
  /-- The value of `localStorage.getItem('theme')`, `none` for `null`. -/
  storedTheme : Option String
  /-- The flag `App.state.darkMode`. -/
  darkMode : Bool
  deriving DecidableEq, Repr

/-- The method `App.setTheme` (lines 57-76). -/
def setTheme (theme : String) (p : ThemePage) : ThemePage :=
  let isDark := theme == "dark"
  { bodyClasses :=
      if isDark then classListAdd "dark-mode" (classListRemove "light-mode" p.bodyClasses)
      else classListAdd "light-mode" (classListRemove "dark-mode" p.bodyClasses)
    themeToggle := p.themeToggle
    ariaPressed := if p.themeToggle then some (if isDark then "true" else "false")
      else p.ariaPressed
    storedTheme := some theme
    darkMode := isDark }

/-- JavaScript truthiness of `localStorage.getItem('theme')`: neither `null` nor `''`. -/
def truthy (v : Option String) : Bool :=
  match v with
  | none => false
  | some t => t != ""

/-- The method `App.setupTheme` (lines 31-55), for the value `prefersDark` of
`matchMedia('(prefers-color-scheme: dark)').matches`.  The two listeners it registers
are `themeToggleClick` and `colorSchemeChange`. -/
def setupTheme (prefersDark : Bool) (p : ThemePage) : ThemePage :=
  let initialTheme :=
    match p.storedTheme with
    | some savedTheme => if savedTheme != "" then savedTheme
        else (if prefersDark then "dark" else "light")
    | none => if prefersDark then "dark" else "light"
  setTheme initialTheme p

/-- The click listener of the theme toggle (lines 42-46). -/
def themeToggleClick (p : ThemePage) : ThemePage :=
  let currentTheme := if p.bodyClasses.contains "dark-mode" then "dark" else "light"
  let newTheme := if currentTheme == "dark" then "light" else "dark"
  setTheme newTheme p

/-- The `change` listener on the colour-scheme media query (lines 50-54), for an event
with `e.matches = eMatches`. -/
def colorSchemeChange (eMatches : Bool) (p : ThemePage) : ThemePage :=
  if !truthy p.storedTheme then setTheme (if eMatches then "dark" else "light") p
  else p

/-- A freshly loaded page: no theme class on `body`, a theme toggle, nothing stored. -/
def freshThemePage : ThemePage :=
  { bodyClasses := []
    themeToggle := true
    ariaPressed := none
    storedTheme := none
    darkMode := false }

/-! ## Active navigation link (lines 180-199) -/

/-- A `section[id]` element as `updateActiveNavLink` reads it. -/
structure Section where
  offsetTop : Int
  offsetHeight : Int
  id : String
  deriving DecidableEq, Repr

/-- A `.nav-link` or `.mobile-nav-link` element. -/
structure NavLink where
  /-- The value of `link.getAttribute('href')`, `none` for `null`. -/
  href : Option String
  classes : List String
  deriving DecidableEq, Repr

/-- The test of line 189 on a section. -/
def sectionContains (scrollPosition : Int) (sec : Section) : Bool :=
  decide (scrollPosition ≥ sec.offsetTop) &&
    decide (scrollPosition < sec.offsetTop + sec.offsetHeight)

/-- The inner `navLinks.forEach` (lines 191-196) for one link. -/
def highlightLink (sectionId : String) (link : NavLink) : NavLink :=
  let classes := classListRemove "active" link.classes
  if link.href == some ("#" ++ sectionId) then
    { link with classes := classListAdd "active" classes }
  else { link with classes := classes }

/-- The method `App.updateActiveNavLink` (lines 180-199): the outer `forEach` is a fold
over the sections in document order. -/
def updateActiveNavLink (scrollY : Int) (sections : List Section)
    (navLinks : List NavLink) : List NavLink :=
  let scrollPosition := scrollY + 100
  sections.foldl
    (fun links sec =>
      if sectionContains scrollPosition sec then links.map (highlightLink sec.id)
      else links)
    navLinks

/-! ## Sign-up form (lines 568-589) -/

/-- The sign-up form `.email-form` with its `button` and its `.email-input`, and the
pending 2000 ms timeouts in the order they were scheduled, each holding the
`originalText` its closure captured. -/
structure SignupForm where
  buttonText : String
  buttonBackground : String
  inputValue : String
  timers : List String
  deriving DecidableEq, Repr

/-- The test `email && email.includes('@')` of line 575. -/
def validEmail (email : String) : Bool :=
  email != "" && email.data.contains '@'

/-- The `submit` listener (lines 570-588). -/
def submit (f : SignupForm) : SignupForm :=
  let email := f.inputValue
  if validEmail email then
    let originalText := f.buttonText
    { f with
      buttonText := "✓ Subscribed!"
      buttonBackground := "var(--color-accent-green)"
      timers := f.timers ++ [originalText] }
  else f

/-- The callback of one 2000 ms timeout (lines 582-586), with its captured text. -/
def revertForm (originalText : String) (f : SignupForm) : SignupForm :=
  { f with buttonText := originalText, buttonBackground := "", inputValue := "" }

/-- The oldest pending timeout fires; `none` when nothing is pending. -/
def fireTimer (f : SignupForm) : Option SignupForm :=
  match f.timers with
  | [] => none
  | originalText :: rest => some (revertForm originalText { f with timers := rest })

/-- Every pending timeout fires, oldest first. -/
def fireAllTimers (f : SignupForm) : SignupForm :=
  f.timers.foldl (fun g originalText => revertForm originalText g) { f with timers := [] }

/-- The user types `v` into the email input. -/
def typeEmail (v : String) (f : SignupForm) : SignupForm :=
  { f with inputValue := v }

/-- The form as the page shows it at load. -/
def signupForm0 : SignupForm :=
  { buttonText := "Subscribe", buttonBackground := "", inputValue := "", timers := [] }

/-! ## Start-up (top level of the script) and the anchor click listener -/

/-- The set-up functions the start-up sequence calls. -/
inductive Setup where
  | init
  | initHeroAnimations
  | initHowItWorksAnimations
  | initBenefitsAnimations
  | initInteractiveAnimations
  | initSuccessStoriesCarousel
  | initCtaPricingSection
  deriving DecidableEq, Repr

/-- The property name of a set-up function on `App`. -/
def Setup.name : Setup → String
  | .init => "init"
  | .initHeroAnimations => "initHeroAnimations"
  | .initHowItWorksAnimations => "initHowItWorksAnimations"
  | .initBenefitsAnimations => "initBenefitsAnimations"
  | .initInteractiveAnimations => "initInteractiveAnimations"
  | .initSuccessStoriesCarousel => "initSuccessStoriesCarousel"
  | .initCtaPricingSection => "initCtaPricingSection"

/-- The seven calls of lines 229-235, repeated at lines 238-244, in source order. -/
def startupCalls : List Setup :=
  [.init, .initHeroAnimations, .initHowItWorksAnimations, .initBenefitsAnimations,
   .initInteractiveAnimations, .initSuccessStoriesCarousel, .initCtaPricingSection]

/-- The top-level statements of `script.js`, in source order. -/
inductive Statement where
  /-- Lines 5-224: `const App = { ... }`, whose literal holds `init`. -/
  | declareApp
  /-- Lines 227-245: the `if (document.readyState === 'loading')` statement. -/
  | startup
  /-- An assignment `App.f = function() { ... }`. -/
  | assign (f : Setup)
  /-- Lines 326-339: the keyframe style element is appended to `document.head`. -/
  | appendStyle
  deriving DecidableEq, Repr

/-- The script, statement by statement: the start-up statement (line 227) precedes
the assignments of the six `init...` functions (lines 251, 281, 345, 380, 462, 562). -/
def scriptStatements : List Statement :=
  [.declareApp, .startup, .assign .initHeroAnimations, .assign .initHowItWorksAnimations,
   .appendStyle, .assign .initBenefitsAnimations, .assign .initInteractiveAnimations,
   .assign .initSuccessStoriesCarousel, .assign .initCtaPricingSection]

/-- Execution state of the script: the properties of `App` that hold a function, the
set-ups that have run to completion, whether the `DOMContentLoaded` listener is
registered, and the uncaught error that stopped the script, if any. -/
structure ScriptState where
  defined : List Setup
  ran : List Setup
  listening : Bool
  error : Option String
  deriving DecidableEq, Repr

/-- The calls `App.f()` one after the other: calling a property that is `undefined`
throws a `TypeError` and the calls after it do not happen.  The set-up functions
themselves guard every element they use and do not throw. -/
def callSetups (st : ScriptState) : List Setup → ScriptState
  | [] => st
  | f :: rest =>
    if st.defined.contains f then callSetups { st with ran := st.ran ++ [f] } rest
    else { st with error := some ("TypeError: App." ++ f.name ++ " is not a function") }

/-- One top-level statement, for a document whose `readyState` is `'loading'` or not. -/
def execStatement (loading : Bool) (st : ScriptState) : Statement → ScriptState
  | .declareApp => { st with defined := st.defined ++ [.init] }
  | .startup => if loading then { st with listening := true } else callSetups st startupCalls
  | .assign f => { st with defined := st.defined ++ [f] }
  | .appendStyle => st

/-- The statements run in order; an uncaught error ends the script. -/
def execStatements (loading : Bool) (st : ScriptState) : List Statement → ScriptState
  | [] => st
  | stmt :: rest =>
    let st1 := execStatement loading st stmt
    match st1.error with
    | some _ => st1
    | none => execStatements loading st1 rest

/-- The script run as a whole. -/
def runScript (loading : Bool) : ScriptState :=
  execStatements loading { defined := [], ran := [], listening := false, error := none }
    scriptStatements

/-- The event `DOMContentLoaded`, which runs the listener of lines 228-236 if the
script registered it. -/
def domContentLoaded (st : ScriptState) : ScriptState :=
  if st.listening then callSetups st startupCalls else st

/-- The click listener `setupNavigation` puts on an in-page anchor (lines 154-172), for
an `href` that `document.querySelector` accepts as a selector (`anchorListener` covers
the other case).  `target` is the `offsetTop` of `document.querySelector(href)`, `none` when there is no
such element, and `headerHeight` the `offsetHeight` of `document.querySelector('.header')`,
`none` when there is no header.  The result is the `top` passed to `window.scrollTo`
(`none` when the listener does not scroll) and the page. -/
def anchorClick (href : String) (target : Option Int) (headerHeight : Option Int)
    (p : Page) : Except String (Option Int × Page) :=
  if href != "#" then
    match target with
    | none => .ok (none, p)
    | some offsetTop =>
      match headerHeight with
      | none => .error "TypeError: document.querySelector('.header') is null"
      | some h =>
        let targetPosition := offsetTop - h
        .ok (some targetPosition, if p.mobileMenuOpen then closeMobileMenu p else p)
  else .ok (none, p)

/-- The anchor click listener for any `href`: when `href` is not `'#'` and is not a valid
selector (`validSelector` false, as for `'#2024'`), `document.querySelector(href)` of
line 156 throws a `SyntaxError`. -/
def anchorListener (validSelector : Bool) (href : String) (target : Option Int)
    (headerHeight : Option Int) (p : Page) : Except String (Option Int × Page) :=
  if href != "#" && !validSelector then
    .error "SyntaxError: document.querySelector: not a valid selector"
  else anchorClick href target headerHeight p

/-! ## Events of the mobile menu (lines 82-113 and 205-215) and of the overlay (lines 406-430) -/

/-- The value `App.config.mobileBreakpoint`. -/
def mobileBreakpoint : Int := 768

/-- The click listener of `#mobile-menu-toggle` (lines 87-89), registered when both menu
elements exist. -/
def menuToggleClick (p : Page) : Page :=
  if p.menuToggle && p.mobileNav then toggleMobileMenu p else p

/-- The click listener of a `.mobile-nav-link` of the drawer (lines 94-96). -/
def mobileNavLinkClick (p : Page) : Page :=
  if p.menuToggle && p.mobileNav then closeMobileMenu p else p

/-- The `keydown` listener of `setupMobileMenu` (lines 107-111). -/
def menuKeydown (key : String) (p : Page) : Page :=
  if p.menuToggle && p.mobileNav then
    if key == "Escape" then closeMobileMenu p else p
  else p

/-- The callback of the debounce timeout of the `resize` listener (lines 210-214), for
the value of `window.innerWidth` when it fires. -/
def resizeTimeout (innerWidth : Int) (p : Page) : Page :=
  if innerWidth ≥ mobileBreakpoint then closeMobileMenu p else p

/-- The click listener of `.overlay-close` (lines 408-411). -/
def overlayCloseClick (p : Page) : Except String Page :=
  match p.productOverlay with
  | none => .error "TypeError: productOverlay is null"
  | some classes =>
    .ok { p with
          productOverlay := some (classListRemove "active" classes)
          bodyOverflow := "" }

/-- The click listener of `#product-overlay` (lines 416-421), registered when the overlay
exists; `targetIsOverlay` is `e.target === productOverlay`. -/
def overlayClick (targetIsOverlay : Bool) (p : Page) : Page :=
  match p.productOverlay with
  | none => p
  | some classes =>
    if targetIsOverlay then
      { p with
        productOverlay := some (classListRemove "active" classes)
        bodyOverflow := "" }
    else p

/-- The selector `a[href^="#"]` of `setupNavigation` on an href. -/
def isInPageAnchor (href : String) : Bool :=
  href.data.head? == some '#'

/-- The page after a listener that may throw: an exception is reported and the dispatch
of the event goes on with the page as the listener found it (the overlay slots a
listener wrote before throwing are not tracked). -/
def orUnchanged (p : Page) (r : Except String Page) : Page :=
  match r with
  | .ok q => q
  | .error _ => p

/-- The events the mobile menu and the product overlay react to.  A click carries what
its listeners read from the target; `insideHeader` is `e.target.closest('.header')`
being an element, for the target of that click. -/
inductive MenuEvent where
  /-- A click on `#mobile-menu-toggle`; `insideHeader` tells whether the toggle is
  inside `.header`. -/
  | toggleClick (insideHeader : Bool)
  /-- A click on a `.mobile-nav-link` of the drawer with the given `href`; `validSelector`,
  `target` and `headerHeight` are what the anchor listener meets, as in `anchorListener`. -/
  | drawerLinkClick (href : String) (validSelector : Bool) (target headerHeight : Option Int)
      (insideHeader : Bool)
  /-- A click on an element outside `.header` that has no listener of its own. -/
  | outsideClick
  /-- The Escape key is pressed. -/
  | escape
  /-- The debounce timeout of a resize fires with the given `window.innerWidth`. -/
  | resize (innerWidth : Int)
  /-- A click on a product card, which opens the overlay. -/
  | cardClick (card : ProductCard)
  /-- A click on `.overlay-close`. -/
  | overlayCloseClick (insideHeader : Bool)
  /-- A click on the backdrop, the overlay element itself. -/
  | overlayBackdropClick (insideHeader : Bool)
  deriving DecidableEq, Repr

/-- One event with all the listeners it triggers, in the order they were registered
along the propagation path: the listeners of the target first, the `document` listener
of `setupMobileMenu` last. -/
def menuStep (p : Page) : MenuEvent → Page
  | .toggleClick insideHeader => documentClick insideHeader (menuToggleClick p)
  | .drawerLinkClick href validSelector target headerHeight insideHeader =>
    let p1 := mobileNavLinkClick p
    let p2 :=
      if isInPageAnchor href then
        orUnchanged p1 ((anchorListener validSelector href target headerHeight p1).map Prod.snd)
      else p1
    documentClick insideHeader p2
  | .outsideClick => documentClick false p
  | .escape =>
    let p1 := menuKeydown "Escape" p
    orUnchanged p1 (overlayKeydown "Escape" p1)
  | .resize innerWidth => resizeTimeout innerWidth p
  | .cardClick card => documentClick card.insideHeader (orUnchanged p (productCardClick card p))
  | .overlayCloseClick insideHeader =>
    documentClick insideHeader (orUnchanged p (overlayCloseClick p))
  | .overlayBackdropClick insideHeader => documentClick insideHeader (overlayClick true p)

/-- Whether the event is not a click on an overlay element that lies inside `.header`:
true for every event but a close-button or backdrop click with `insideHeader`. -/
def overlayOutsideHeader : MenuEvent → Bool
  | .overlayCloseClick insideHeader => !insideHeader
  | .overlayBackdropClick insideHeader => !insideHeader
  | _ => true

/-- A finite sequence of events, each handled to completion before the next. -/
def menuRun (p : Page) (evs : List MenuEvent) : Page :=
  evs.foldl menuStep p

/-- The relation the claim states between the flag, the markup and the scroll lock, on
a page that has the toggle and the drawer. -/
def MenuInv (p : Page) : Prop :=
  p.menuToggle = true ∧ p.mobileNav = true ∧
  (p.mobileMenuOpen = true ↔ (p.ariaExpanded = some "true" ∧ "active" ∈ p.mobileNavClasses)) ∧
  (p.mobileMenuOpen = true → p.bodyOverflow = "hidden")

/-- The menu part of two pages is the same. -/
def SameMenu (p q : Page) : Prop :=
  q.menuToggle = p.menuToggle ∧ q.mobileNav = p.mobileNav ∧
  q.ariaExpanded = p.ariaExpanded ∧ q.mobileNavClasses = p.mobileNavClasses ∧
  q.mobileMenuOpen = p.mobileMenuOpen

/-! ### Arithmetic of the index normalisation -/

theorem jsMod_gt_neg (i n : Int) (h : 0 < n) : -n < jsMod i n := by
  unfold jsMod
  obtain ⟨k, rfl⟩ := Int.eq_ofNat_of_zero_le (le_of_lt h)
  cases i with
  | ofNat m =>
    have := Int.tmod_nonneg (k : Int) (Int.ofNat_nonneg m)
    simp only [Int.ofNat_eq_coe] at *
    omega
  | negSucc m =>
    have hk : 0 < k := by omega
    have h2 : Int.tmod (Int.negSucc m) (k : Int) = -(((m + 1) % k : Nat) : Int) := rfl
    rw [h2]
    have := Nat.mod_lt (m + 1) hk
    omega

theorem jsMod_lt (i n : Int) (h : 0 < n) : jsMod i n < n := by
  unfold jsMod
  exact Int.tmod_lt_of_pos i h

theorem jsMod_emod (i n : Int) : jsMod i n % n = i % n := by
  unfold jsMod
  have := Int.tmod_add_tdiv i n
  conv_rhs => rw [← this]
  simp

/-- Up to magnitude `2^53` an integer is a double. -/
theorem toDouble_exact (x : Int) (h1 : -9007199254740992 ≤ x) (h2 : x ≤ 9007199254740992) :
    toDouble x = x := by
  have h : x.natAbs ≤ 9007199254740992 := by omega
  simp [toDouble, h]

/-- The spec's formula `((i % N) + N) % N`, evaluated on JavaScript numbers, is the
mathematical residue for every `i`, when `N` is at most `2^52`. -/
theorem jsMod_jsMod_add (i n : Int) (h : 0 < n) (hn : n ≤ 4503599627370496) :
    jsMod (toDouble (jsMod i n + n)) n = i % n := by
  have h1 := jsMod_gt_neg i n h
  have h3 := jsMod_lt i n h
  rw [toDouble_exact _ (by omega) (by omega)]
  have h2 : jsMod (jsMod i n + n) n = (jsMod i n + n) % n := by
    unfold jsMod at *
    exact Int.tmod_eq_emod (by omega) (by omega)
  rw [h2, Int.add_emod_self, jsMod_emod]

/-- The code's formula `(i + N) % N` is the mathematical residue once `i + N` is not
negative and is at most `2^53`. -/
theorem jsMod_add_self (i n : Int) (h : 0 < n) (hi : -n ≤ i)
    (hmax : i + n ≤ 9007199254740992) : jsMod (toDouble (i + n)) n = i % n := by
  rw [toDouble_exact _ (by omega) hmax]
  have h2 : jsMod (i + n) n = (i + n) % n := by
    unfold jsMod
    exact Int.tmod_eq_emod (by omega) (by omega)
  rw [h2, Int.add_emod_self]

/-! ### What `showSlide` writes -/

theorem showSlide_currentSlide_eq (i : Int) (s : Carousel) :
    (showSlide i s).currentSlide = jsMod (toDouble (i + s.cards.length)) s.cards.length := rfl

theorem showSlide_cards_length (i : Int) (s : Carousel) :
    (showSlide i s).cards.length = s.cards.length := by
  simp [showSlide, armAutoAdvance]

theorem showSlide_dots_length (i : Int) (s : Carousel) :
    (showSlide i s).dots.length = s.dots.length := by
  simp [showSlide, armAutoAdvance]

theorem showSlide_card (i : Int) (s : Carousel) (j : Nat) (c : CardStyle)
    (h : (showSlide i s).cards[j]? = some c) :
    c.opacity = (if (j : Int) = (showSlide i s).currentSlide then "1" else "0") ∧
    c.pointerEvents = (if (j : Int) = (showSlide i s).currentSlide then "auto" else "none") := by
  simp only [showSlide, armAutoAdvance, List.getElem?_mapIdx] at h ⊢
  cases hj : s.cards[j]? with
  | none => simp [hj] at h
  | some c0 =>
    simp only [hj, Option.map_some', Option.some.injEq] at h
    subst h
    exact ⟨rfl, rfl⟩

theorem showSlide_inv (i : Int) (s : Carousel) (hN : 1 ≤ s.cards.length)
    (hlen : s.cards.length < 4294967296) (hdots : s.dots.length < 4294967296)
    (hi : -(s.cards.length : Int) ≤ i)
    (hmax : i + s.cards.length ≤ 9007199254740992) :
    CarouselInv (showSlide i s) ∧ CarouselShown (showSlide i s) := by
  have hpos : (0 : Int) < s.cards.length := by omega
  have hcur : (showSlide i s).currentSlide = i % s.cards.length := by
    rw [showSlide_currentSlide_eq, jsMod_add_self i _ hpos hi hmax]
  refine ⟨⟨?_, ?_, ?_, ?_, ?_⟩, ?_⟩
  · rw [showSlide_cards_length]; exact hlen
  · rw [showSlide_dots_length]; exact hdots
  · rw [hcur]; exact Int.emod_nonneg _ (by omega)
  · rw [hcur, showSlide_cards_length]; exact Int.emod_lt_of_pos _ hpos
  · intro j c hc
    obtain ⟨h1, h2⟩ := showSlide_card i s j c hc
    by_cases hj : (j : Int) = (showSlide i s).currentSlide
    · simp [h1, h2, hj]
    · simp [h1, h2, hj]
  · intro j c hc
    obtain ⟨h1, h2⟩ := showSlide_card i s j c hc
    by_cases hj : (j : Int) = (showSlide i s).currentSlide
    · simp [h1, h2, hj]
    · simp [h1, h2, hj]

theorem carouselStep_inv (s s1 : Carousel) (e : CarouselEvent)
    (hinv : CarouselInv s) (hstep : carouselStep s e = some s1) :
    s1.cards.length = s.cards.length ∧ CarouselInv s1 ∧
    (callsShowSlide e = true → CarouselShown s1) := by
  obtain ⟨hlen, hdots, h0, h1, h2⟩ := hinv
  have hN : 1 ≤ s.cards.length := by omega
  cases e with
  | prevClick =>
    simp only [carouselStep, Option.some.injEq] at hstep
    subst hstep
    rw [toDouble_exact _ (by omega) (by omega)]
    obtain ⟨ha, hb⟩ := showSlide_inv (s.currentSlide - 1) s hN hlen hdots (by omega) (by omega)
    exact ⟨showSlide_cards_length _ _, ha, fun _ => hb⟩
  | nextClick =>
    simp only [carouselStep, Option.some.injEq] at hstep
    subst hstep
    rw [toDouble_exact _ (by omega) (by omega)]
    obtain ⟨ha, hb⟩ := showSlide_inv (s.currentSlide + 1) s hN hlen hdots (by omega) (by omega)
    exact ⟨showSlide_cards_length _ _, ha, fun _ => hb⟩
  | dotClick index =>
    simp only [carouselStep] at hstep
    split at hstep
    · simp only [Option.some.injEq] at hstep
      subst hstep
      obtain ⟨ha, hb⟩ := showSlide_inv (index : Int) s hN hlen hdots (by omega) (by omega)
      exact ⟨showSlide_cards_length _ _, ha, fun _ => hb⟩
    · exact absurd hstep (by simp)
  | timerFire handle =>
    simp only [carouselStep] at hstep
    split at hstep
    · simp only [Option.some.injEq] at hstep
      subst hstep
      rw [toDouble_exact _ (by omega) (by omega)]
      obtain ⟨ha, hb⟩ := showSlide_inv (s.currentSlide + 1)
        { s with pending := s.pending.filter (fun u => u != handle) }
        hN hlen hdots (by simp only; omega) (by simp only; omega)
      exact ⟨showSlide_cards_length _ _, ha, fun _ => hb⟩
    · exact absurd hstep (by simp)
  | mouseenter =>
    simp only [carouselStep, Option.some.injEq] at hstep
    subst hstep
    exact ⟨rfl, ⟨hlen, hdots, h0, h1, h2⟩, fun h => absurd h (by simp [callsShowSlide])⟩
  | mouseleave =>
    simp only [carouselStep, Option.some.injEq] at hstep
    subst hstep
    exact ⟨rfl, ⟨hlen, hdots, h0, h1, h2⟩, fun h => absurd h (by simp [callsShowSlide])⟩
  | observerCallback entries =>
    simp only [carouselStep] at hstep
    split at hstep
    · simp only [Option.some.injEq] at hstep
      subst hstep
      exact ⟨rfl, ⟨hlen, hdots, h0, h1, h2⟩, fun h => absurd h (by simp [callsShowSlide])⟩
    · exact absurd hstep (by simp)
  | revealTimerFire target =>
    simp only [carouselStep] at hstep
    split at hstep
    · simp only [Option.some.injEq] at hstep
      subst hstep
      refine ⟨by simp, ⟨by simpa using hlen, hdots, h0, by simpa using h1, ?_⟩,
        fun h => absurd h (by simp [callsShowSlide])⟩
      intro j c hc
      simp only [List.getElem?_mapIdx] at hc
      cases hj : s.cards[j]? with
      | none => simp [hj] at hc
      | some c0 =>
        simp only [hj, Option.map_some', Option.some.injEq] at hc
        obtain ⟨hp, ho⟩ := h2 j c0 hj
        subst hc
        by_cases ht : j = target
        · simp only [ht, if_true, revealTimeout]
          subst ht
          exact ⟨hp, fun _ => trivial⟩
        · simp only [ht, if_false]
          exact ⟨hp, ho⟩
    · exact absurd hstep (by simp)

theorem carouselRun_inv (evs : List CarouselEvent) (s s1 : Carousel)
    (hinv : CarouselInv s) (hrun : carouselRun s evs = some s1) :
    s1.cards.length = s.cards.length ∧ CarouselInv s1 := by
  induction evs generalizing s with
  | nil =>
    simp only [carouselRun, Option.some.injEq] at hrun
    subst hrun
    exact ⟨rfl, hinv⟩
  | cons e es ih =>
    simp only [carouselRun] at hrun
    cases hstep : carouselStep s e with
    | none => simp [hstep] at hrun
    | some s2 =>
      simp only [hstep, Option.some_bind] at hrun
      obtain ⟨hlen, hinv2, _⟩ := carouselStep_inv s s2 e hinv hstep
      obtain ⟨hlen1, hinv1⟩ := ih s2 hinv2 hrun
      exact ⟨by omega, hinv1⟩

theorem init_inv (carousel : Bool) (cards : List CardStyle) (dots : List Bool) (s0 : Carousel)
    (hcards : cards.length < 4294967296) (hdots : dots.length < 4294967296)
    (hinit : initSuccessStoriesCarousel carousel cards dots = some s0) :
    1 ≤ cards.length ∧ s0.cards.length = cards.length ∧ CarouselInv s0 ∧ CarouselShown s0 := by
  unfold initSuccessStoriesCarousel at hinit
  split at hinit
  · exact absurd hinit (by simp)
  · rename_i hguard
    simp only [Bool.or_eq_true, Bool.not_eq_true', beq_iff_eq, not_or] at hguard
    have hlen : 1 ≤ cards.length := by omega
    simp only [Option.some.injEq] at hinit
    subst hinit
    obtain ⟨ha, hb⟩ := showSlide_inv 0
      { currentSlide := 0
        autoAdvanceTimer := none
        cards := cards.map fun c => { c with opacity := "0" }
        dots := dots
        pending := []
        nextHandle := 1
        observer := observeCards cards.length
        revealPending := [] }
      (by simpa using hlen) (by simpa using hcards) hdots
      (by simp only [List.length_map]; omega) (by simp only [List.length_map]; omega)
    refine ⟨hlen, ?_, ha, hb⟩
    rw [showSlide_cards_length]; simp

/-! ### Claims C1 - C3 -/

/-- C1, as stated, fails on three cards at `showSlide(-4)`: the code leaves
`currentSlide = -1`, whereas `((i % N) + N) % N` is `2`.  It also fails at
`showSlide(2^53)`, where the sum `index + 3` of line 478 is rounded to `2^53 + 4`: the
code leaves `currentSlide = 0`, whereas the formula gives `2`. -/
theorem C1_showSlide_below_minus_N :
    (showSlide (-4) carousel3).currentSlide = -1 ∧
    jsMod (toDouble (jsMod (-4) 3 + 3)) 3 = 2 ∧
    (showSlide (-4) carousel3).currentSlide ≠ jsMod (toDouble (jsMod (-4) 3 + 3)) 3 ∧
    toDouble (9007199254740992 + 3) = 9007199254740996 ∧
    (showSlide 9007199254740992 carousel3).currentSlide = 0 ∧
    jsMod (toDouble (jsMod 9007199254740992 3 + 3)) 3 = 2 ∧
    (9007199254740992 : Int) % 3 = 2 := by
  decide

/-- C1 (amended): for every card count `N` with `1 <= N < 2^32` and every integer `i`
with `-N <= i` and `i + N <= 2^53`, after `showSlide(i)` the index `currentSlide` equals
`((i % N) + N) % N` with JavaScript's truncating `%`, which is the mathematical residue
of `i` modulo `N`, in `[0, N)`; and `showSlide(-1)` leaves `currentSlide = N - 1`. -/
theorem C1_showSlide_normalizes (s : Carousel) (i : Int) (hN : 1 ≤ s.cards.length)
    (hlen : s.cards.length < 4294967296)
    (hi : -(s.cards.length : Int) ≤ i)
    (hmax : i + s.cards.length ≤ 9007199254740992) :
    (showSlide i s).currentSlide =
      jsMod (toDouble (jsMod i s.cards.length + s.cards.length)) s.cards.length ∧
    (showSlide i s).currentSlide = i % s.cards.length ∧
    0 ≤ (showSlide i s).currentSlide ∧
    (showSlide i s).currentSlide < s.cards.length ∧
    (showSlide (-1) s).currentSlide = (s.cards.length : Int) - 1 := by
  have hpos : (0 : Int) < s.cards.length := by omega
  have hcur : (showSlide i s).currentSlide = i % s.cards.length := by
    rw [showSlide_currentSlide_eq, jsMod_add_self i _ hpos hi hmax]
  refine ⟨?_, hcur, ?_, ?_, ?_⟩
  · rw [hcur, jsMod_jsMod_add i _ hpos (by omega)]
  · rw [hcur]; exact Int.emod_nonneg _ (by omega)
  · rw [hcur]; exact Int.emod_lt_of_pos _ hpos
  · rw [showSlide_currentSlide_eq, jsMod_add_self (-1) _ hpos (by omega) (by omega),
      ← Int.add_emod_self, Int.emod_eq_of_lt (by omega) (by omega)]
    omega

theorem C1_showSlide_normalizes_witness :
    1 ≤ carousel3.cards.length ∧ -(carousel3.cards.length : Int) ≤ -3 ∧
    (showSlide (-3) carousel3).currentSlide = 0 :=
  ⟨by decide, by decide,
    (C1_showSlide_normalizes carousel3 (-3) (by decide) (by decide) (by decide)
      (by decide)).2.1.trans (by decide)⟩

/-- C2, as stated, fails: `initSuccessStoriesCarousel` also registers the three cards with
its reveal observer, whose callback and timeouts run without any user action.  Once
card 0 has been reported intersecting and its timeout has fired, the current card has
opacity `'0'`, and a hover-enter does not change that: no card has opacity `'1'`. -/
theorem C2_reveal_timeout_hides_current_card :
    initSuccessStoriesCarousel true threeCards [false, false, false] = some carousel3 ∧
    (carouselRun carousel3
      [.observerCallback [⟨0, true⟩], .revealTimerFire 0, .mouseenter]).map
        (fun s => (s.currentSlide, s.cards)) =
      some (0, [⟨"0", "auto", "fadeInUp 600ms ease-out forwards"⟩,
        ⟨"0", "none", ""⟩, ⟨"0", "none", ""⟩]) := by
  decide

/-- C2 (amended): in every carousel state reachable from `initSuccessStoriesCarousel` by a
finite sequence of prev clicks, next clicks, dot clicks, auto-advance firings,
hover-enter, hover-leave, reveal-observer callbacks and reveal timeouts, with `N >= 1`
cards (and fewer than `2^32` cards and dots, as a `NodeList` has): `0 <= currentSlide <
N`; card `j` has pointer-events `'auto'` exactly when `j = currentSlide`; every other
card has opacity `'0'`, so at most one card has opacity `'1'`; and right after
initialization and after every prev click, next click, dot click and auto-advance
firing, card `j` has opacity `'1'` and pointer-events `'auto'` exactly when
`j = currentSlide`. -/
theorem C2_carousel_invariant (carousel : Bool) (cards : List CardStyle) (dots : List Bool)
    (evs : List CarouselEvent) (s0 s : Carousel)
    (hcards : cards.length < 4294967296) (hdots : dots.length < 4294967296)
    (hinit : initSuccessStoriesCarousel carousel cards dots = some s0)
    (hrun : carouselRun s0 evs = some s) :
    1 ≤ cards.length ∧ s.cards.length = cards.length ∧
    0 ≤ s.currentSlide ∧ s.currentSlide < cards.length ∧
    (∀ (j : Nat) (c : CardStyle), s.cards[j]? = some c →
      ((c.pointerEvents = "auto" ↔ (j : Int) = s.currentSlide) ∧
       ((j : Int) ≠ s.currentSlide → c.opacity = "0") ∧
       (c.opacity = "1" → (j : Int) = s.currentSlide))) ∧
    (∀ (j : Nat) (c : CardStyle), s0.cards[j]? = some c →
      ((c.opacity = "1" ∧ c.pointerEvents = "auto") ↔ (j : Int) = s0.currentSlide)) ∧
    (∀ (e : CarouselEvent) (s1 : Carousel), callsShowSlide e = true →
      carouselStep s e = some s1 →
      ∀ (j : Nat) (c : CardStyle), s1.cards[j]? = some c →
        ((c.opacity = "1" ∧ c.pointerEvents = "auto") ↔ (j : Int) = s1.currentSlide)) := by
  obtain ⟨hN, hlen0, hinv0, hshown0⟩ := init_inv carousel cards dots s0 hcards hdots hinit
  obtain ⟨hlen, hinv⟩ := carouselRun_inv evs s0 s hinv0 hrun
  have hinv' := hinv
  obtain ⟨_, _, h0, h1, h2⟩ := hinv
  refine ⟨hN, by omega, h0, ?_, ?_, hshown0, ?_⟩
  · rw [hlen, hlen0] at h1
    exact h1
  · intro j c hc
    obtain ⟨hp, ho⟩ := h2 j c hc
    refine ⟨hp, ho, ?_⟩
    intro hone
    by_contra hne
    have := ho hne
    rw [hone] at this
    exact absurd this (by decide)
  · intro e s1 he hstep
    exact (carouselStep_inv s s1 e hinv' hstep).2.2 he

theorem C2_carousel_invariant_witness :
    initSuccessStoriesCarousel true threeCards [false, false, false] = some carousel3 ∧
    (carouselRun carousel3
      [.prevClick, .observerCallback [⟨2, true⟩], .revealTimerFire 2, .dotClick 1,
        .mouseleave, .timerFire 3]).map (fun s => (s.currentSlide, s.cards)) =
      some (2, [⟨"0", "none", ""⟩, ⟨"0", "none", ""⟩,
        ⟨"1", "auto", "fadeInUp 600ms ease-out forwards"⟩]) ∧
    (2 : Int) < threeCards.length :=
  ⟨by decide, by decide,
    (C2_carousel_invariant true threeCards [false, false, false]
      [.prevClick, .observerCallback [⟨2, true⟩], .revealTimerFire 2, .dotClick 1,
        .mouseleave, .timerFire 3] carousel3
      { currentSlide := 2
        autoAdvanceTimer := some 5
        cards := [⟨"0", "none", ""⟩, ⟨"0", "none", ""⟩,
          ⟨"1", "auto", "fadeInUp 600ms ease-out forwards"⟩]
        dots := [false, false, true]
        pending := [5]
        nextHandle := 6
        observer := { targets := [0, 1], scheduled := [(2, 0)], unobserveCalls := [2] }
        revealPending := [] }
      (by decide) (by decide) (by decide) (by decide)).2.2.2.1⟩

/-- C3 fails on the code: the `mouseleave` handler arms a timeout without clearing the
one `showSlide` armed during the hover.  On three cards, hover-enter, next click,
hover-leave leaves two timeouts pending; repeating the three events leaves three, and
the two orphaned ones then fire one after the other, advancing the slide twice
(from 2 to 0 to 1) with no user action in between. -/
theorem C3_mouseleave_leaves_two_timers :
    initSuccessStoriesCarousel true threeCards [false, false, false] = some carousel3 ∧
    carousel3.pending = [1] ∧
    (carouselRun carousel3 [.mouseenter, .nextClick, .mouseleave]).map (fun s => s.pending)
      = some [2, 3] ∧
    (carouselRun carousel3
      [.mouseenter, .nextClick, .mouseleave, .mouseenter, .nextClick, .mouseleave]).map
        (fun s => (s.currentSlide, s.pending)) = some (2, [2, 4, 5]) ∧
    (carouselRun carousel3
      [.mouseenter, .nextClick, .mouseleave, .mouseenter, .nextClick, .mouseleave,
        .timerFire 2]).map (fun s => (s.currentSlide, s.pending)) = some (0, [4, 6]) ∧
    (carouselRun carousel3
      [.mouseenter, .nextClick, .mouseleave, .mouseenter, .nextClick, .mouseleave,
        .timerFire 2, .timerFire 4]).map (fun s => (s.currentSlide, s.pending))
      = some (1, [7]) := by
  decide

/-! ### Class lists -/

theorem mem_classListAdd (x c : String) (l : List String) :
    x ∈ classListAdd c l ↔ x = c ∨ x ∈ l := by
  unfold classListAdd
  split
  · rename_i h
    have hc : c ∈ l := by simpa using h
    constructor
    · intro hx; exact Or.inr hx
    · rintro (rfl | hx)
      · exact hc
      · exact hx
  · simp only [List.mem_append, List.mem_singleton]
    tauto

theorem mem_classListRemove (x c : String) (l : List String) :
    x ∈ classListRemove c l ↔ x ∈ l ∧ x ≠ c := by
  simp [classListRemove]

theorem classListRemove_idem (c : String) (l : List String) :
    classListRemove c (classListRemove c l) = classListRemove c l := by
  simp [classListRemove, List.filter_filter]

theorem classListRemove_add (c : String) (l : List String) :
    classListRemove c (classListAdd c l) = classListRemove c l := by
  unfold classListAdd
  split
  · rfl
  · simp [classListRemove, List.filter_append]

/-! ### Claim C4 -/

/-- What a product card click leaves behind when nothing it reads is missing: the
overlay is active, and the scroll lock survives only if the `document` listener of the
mobile menu is not registered or the card is inside the header. -/
theorem clickProductCard_overflow (card : ProductCard) (p : Page)
    (name price image slotName slotPrice : String) (slotImage : String × String)
    (classes : List String)
    (h1 : card.productName = some name) (h2 : card.productPrice = some price)
    (h3 : card.productImage = some image) (h4 : p.overlayProductName = some slotName)
    (h5 : p.overlayProductPrice = some slotPrice) (h6 : p.overlayProductImage = some slotImage)
    (h7 : p.productOverlay = some classes) :
    ∃ q, clickProductCard card p = .ok q ∧
      q.productOverlay = some (classListAdd "active" classes) ∧
      q.bodyOverflow =
        (if p.menuToggle && p.mobileNav && !card.insideHeader then "" else "hidden") := by
  simp only [clickProductCard, productCardClick, h1, h2, h3, h4, h5, h6, h7, Except.map]
  refine ⟨_, rfl, ?_, ?_⟩
  · unfold documentClick closeMobileMenu
    cases p.menuToggle <;> cases p.mobileNav <;> cases card.insideHeader <;> rfl
  · unfold documentClick closeMobileMenu
    cases p.menuToggle <;> cases p.mobileNav <;> cases card.insideHeader <;> rfl

/-- C4 fails on the code: on a page with the menu toggle, the drawer, the overlay and
its slots, a click on a product card outside the header first locks scroll (the card's
listener) and then bubbles to the `document` listener of the mobile menu, whose
`closeMobileMenu` resets `body.style.overflow` to `''`: the overlay is active and the
page scrolls. -/
theorem C4_card_click_leaves_scroll_unlocked :
    (productCardClick widgetCard fullPage).map (fun q => (q.productOverlay, q.bodyOverflow))
      = .ok (some ["product-overlay", "active"], "hidden") ∧
    (clickProductCard widgetCard fullPage).map (fun q => (q.productOverlay, q.bodyOverflow))
      = .ok (some ["product-overlay", "active"], "") ∧
    (clickProductCard widgetCard fullPage).map
        (fun q => (q.overlayProductName, q.overlayProductPrice, q.overlayProductImage))
      = .ok (some "Widget", some "$10", some ("widget.png", "Widget")) := by
  refine ⟨rfl, rfl, rfl⟩

/-! ### Claims C5 and C6 -/

theorem setupTheme_stores (prefersDark : Bool) (p : ThemePage) :
    truthy (setupTheme prefersDark p).storedTheme = true := by
  unfold setupTheme setTheme truthy
  cases hs : p.storedTheme with
  | none => cases prefersDark <;> simp
  | some t =>
    by_cases ht : t = ""
    · subst ht
      cases prefersDark <;> simp
    · simp [ht]

/-- After `setupTheme` the colour-scheme listener never changes anything: `setupTheme`
has stored a theme, so the guard of line 51 is false. -/
theorem colorSchemeChange_after_setupTheme (prefersDark eMatches : Bool) (p : ThemePage) :
    colorSchemeChange eMatches (setupTheme prefersDark p) = setupTheme prefersDark p := by
  unfold colorSchemeChange
  rw [setupTheme_stores]
  rfl

/-- C5 fails on the code: with nothing persisted and a light OS preference, `App.init`
(through `setupTheme`) sets light mode and stores `'light'`; the OS change event with
`matches = true` then finds a stored theme and leaves the mode light, although the
user never toggled.  The claim says the mode becomes dark. -/
theorem C5_os_change_ignored_after_init :
    freshThemePage.storedTheme = none ∧
    setupTheme false freshThemePage =
      { bodyClasses := ["light-mode"], themeToggle := true, ariaPressed := some "false",
        storedTheme := some "light", darkMode := false } ∧
    colorSchemeChange true (setupTheme false freshThemePage) =
      { bodyClasses := ["light-mode"], themeToggle := true, ariaPressed := some "false",
        storedTheme := some "light", darkMode := false } ∧
    colorSchemeChange true freshThemePage =
      { bodyClasses := ["dark-mode"], themeToggle := true, ariaPressed := some "true",
        storedTheme := some "dark", darkMode := true } := by
  decide

theorem setTheme_dark_classes (p : ThemePage) :
    "dark-mode" ∈ (setTheme "dark" p).bodyClasses ∧
    "light-mode" ∉ (setTheme "dark" p).bodyClasses := by
  have h : (setTheme "dark" p).bodyClasses =
      classListAdd "dark-mode" (classListRemove "light-mode" p.bodyClasses) := rfl
  rw [h]
  constructor
  · exact (mem_classListAdd _ _ _).2 (Or.inl rfl)
  · intro hmem
    rcases (mem_classListAdd _ _ _).1 hmem with h1 | h1
    · exact absurd h1 (by decide)
    · exact ((mem_classListRemove _ _ _).1 h1).2 rfl

theorem setTheme_light_classes (p : ThemePage) :
    "light-mode" ∈ (setTheme "light" p).bodyClasses ∧
    "dark-mode" ∉ (setTheme "light" p).bodyClasses := by
  have h : (setTheme "light" p).bodyClasses =
      classListAdd "light-mode" (classListRemove "dark-mode" p.bodyClasses) := rfl
  rw [h]
  constructor
  · exact (mem_classListAdd _ _ _).2 (Or.inl rfl)
  · intro hmem
    rcases (mem_classListAdd _ _ _).1 hmem with h1 | h1
    · exact absurd h1 (by decide)
    · exact ((mem_classListRemove _ _ _).1 h1).2 rfl

/-- C6: for every OS preference and every mode `t` among light and dark, running
`setupTheme` on a page whose storage holds what `setTheme(t)` persisted yields mode
`t`, with `body` carrying the class of `t` and not the other one; and `setupTheme`
with nothing persisted yields dark when the OS reports dark and light otherwise. -/
theorem C6_theme_persisted_then_os (prefersDark : Bool) (t : String) (p reloaded : ThemePage)
    (ht : t = "light" ∨ t = "dark")
    (hstore : reloaded.storedTheme = (setTheme t p).storedTheme) :
    (("dark-mode" ∈ (setupTheme prefersDark reloaded).bodyClasses ↔ t = "dark") ∧
     ("light-mode" ∈ (setupTheme prefersDark reloaded).bodyClasses ↔ t = "light") ∧
     (setupTheme prefersDark reloaded).darkMode = (t == "dark") ∧
     (setupTheme prefersDark reloaded).storedTheme = some t) ∧
    (∀ cleared : ThemePage, cleared.storedTheme = none →
      (("dark-mode" ∈ (setupTheme prefersDark cleared).bodyClasses ↔ prefersDark = true) ∧
       ("light-mode" ∈ (setupTheme prefersDark cleared).bodyClasses ↔ prefersDark = false) ∧
       (setupTheme prefersDark cleared).darkMode = prefersDark)) := by
  constructor
  · have hs : reloaded.storedTheme = some t := hstore
    rcases ht with rfl | rfl
    · have hq : setupTheme prefersDark reloaded = setTheme "light" reloaded := by
        simp [setupTheme, hs]
      rw [hq]
      obtain ⟨h1, h2⟩ := setTheme_light_classes reloaded
      refine ⟨?_, ?_, rfl, rfl⟩
      · exact ⟨fun h => absurd h h2, fun h => absurd h (by decide)⟩
      · exact ⟨fun _ => rfl, fun _ => h1⟩
    · have hq : setupTheme prefersDark reloaded = setTheme "dark" reloaded := by
        simp [setupTheme, hs]
      rw [hq]
      obtain ⟨h1, h2⟩ := setTheme_dark_classes reloaded
      refine ⟨?_, ?_, rfl, rfl⟩
      · exact ⟨fun _ => rfl, fun _ => h1⟩
      · exact ⟨fun h => absurd h h2, fun h => absurd h (by decide)⟩
  · intro cleared hc
    cases prefersDark
    · have hq : setupTheme false cleared = setTheme "light" cleared := by
        simp [setupTheme, hc]
      rw [hq]
      obtain ⟨h1, h2⟩ := setTheme_light_classes cleared
      refine ⟨?_, ?_, rfl⟩
      · exact ⟨fun h => absurd h h2, fun h => absurd h (by decide)⟩
      · exact ⟨fun _ => rfl, fun _ => h1⟩
    · have hq : setupTheme true cleared = setTheme "dark" cleared := by
        simp [setupTheme, hc]
      rw [hq]
      obtain ⟨h1, h2⟩ := setTheme_dark_classes cleared
      refine ⟨?_, ?_, rfl⟩
      · exact ⟨fun _ => rfl, fun _ => h1⟩
      · exact ⟨fun h => absurd h h2, fun h => absurd h (by decide)⟩

theorem C6_theme_persisted_then_os_witness :
    (setupTheme false (setTheme "dark" freshThemePage)).bodyClasses = ["dark-mode"] ∧
    ("dark-mode" ∈ (setupTheme false (setTheme "dark" freshThemePage)).bodyClasses ↔
      "dark" = "dark") :=
  ⟨by decide,
    (C6_theme_persisted_then_os false "dark" freshThemePage (setTheme "dark" freshThemePage)
      (Or.inr rfl) rfl).1.1⟩

/-! ### Claim C7 -/

theorem highlightLink_href (sectionId : String) (link : NavLink) :
    (highlightLink sectionId link).href = link.href := by
  unfold highlightLink
  split <;> rfl

theorem highlightLink_active (sectionId : String) (link : NavLink) :
    "active" ∈ (highlightLink sectionId link).classes ↔ link.href = some ("#" ++ sectionId) := by
  unfold highlightLink
  by_cases h : link.href = some ("#" ++ sectionId)
  · simp only [h, beq_self_eq_true, if_true, iff_true]
    exact (mem_classListAdd _ _ _).2 (Or.inl rfl)
  · have hb : (link.href == some ("#" ++ sectionId)) = false := by simpa using h
    simp only [hb, h, iff_false]
    intro hmem
    exact ((mem_classListRemove _ _ _).1 hmem).2 rfl

theorem highlightLink_highlightLink (a b : String) (link : NavLink) :
    highlightLink b (highlightLink a link) = highlightLink b link := by
  have hc : classListRemove "active" (highlightLink a link).classes =
      classListRemove "active" link.classes := by
    unfold highlightLink
    split
    · simp only [classListRemove_add, classListRemove_idem]
    · simp only [classListRemove_idem]
  have key : ∀ x : NavLink, highlightLink b x =
      { href := x.href
        classes := if x.href == some ("#" ++ b)
          then classListAdd "active" (classListRemove "active" x.classes)
          else classListRemove "active" x.classes } := by
    intro x
    unfold highlightLink
    split <;> rfl
  rw [key, key, highlightLink_href, hc]

/-- The fold of `updateActiveNavLink` in closed form: the last section that contains
the scroll position decides, and without one the links are returned as they were. -/
theorem updateActiveNavLink_eq (scrollY : Int) (sections : List Section)
    (navLinks : List NavLink) :
    updateActiveNavLink scrollY sections navLinks =
      match (sections.filter (sectionContains (scrollY + 100))).getLast? with
      | none => navLinks
      | some sec => navLinks.map (highlightLink sec.id) := by
  unfold updateActiveNavLink
  induction sections generalizing navLinks with
  | nil => rfl
  | cons sec rest ih =>
    simp only [List.foldl_cons]
    rw [ih]
    cases hsec : sectionContains (scrollY + 100) sec with
    | false =>
      simp only [Bool.false_eq_true, if_false]
      rw [List.filter_cons_of_neg (by simp [hsec])]
    | true =>
      simp only [if_true]
      rw [List.filter_cons_of_pos hsec]
      cases hrest : List.filter (sectionContains (scrollY + 100)) rest with
      | nil => rfl
      | cons r rs =>
        rw [List.getLast?_cons_cons]
        cases hlast : (r :: rs).getLast? with
        | none => simp at hlast
        | some final =>
          simp only [List.map_map]
          apply List.map_congr_left
          intro link _
          exact highlightLink_highlightLink sec.id final.id link

/-- C7, as stated, fails when no section contains the position: on a page whose only
section starts at 600 px, at `scrollY = 0` a link that was highlighted before the call
is still highlighted after it. -/
theorem C7_no_section_keeps_highlight :
    ([⟨600, 400, "features"⟩] : List Section).filter (sectionContains (0 + 100)) = [] ∧
    updateActiveNavLink 0 [⟨600, 400, "features"⟩]
        [⟨some "#features", ["nav-link", "active"]⟩, ⟨some "#pricing", ["nav-link"]⟩]
      = [⟨some "#features", ["nav-link", "active"]⟩, ⟨some "#pricing", ["nav-link"]⟩] ∧
    ¬ (∀ link ∈ updateActiveNavLink 0 [⟨600, 400, "features"⟩]
        [⟨some "#features", ["nav-link", "active"]⟩, ⟨some "#pricing", ["nav-link"]⟩],
        "active" ∉ link.classes) := by
  decide

/-- C7 (amended): for every scroll position, every list of sections and every prior
highlight state, after `updateActiveNavLink`: if some section's extent
`[offsetTop, offsetTop + offsetHeight)` contains `scrollY + 100`, a nav link is
`active` exactly when its href is `'#'` followed by the id of the last such section in
document order; if no section's extent contains `scrollY + 100`, every nav link keeps
the highlight state it had. -/
theorem C7_updateActiveNavLink (scrollY : Int) (sections : List Section)
    (navLinks : List NavLink) :
    (∀ sec : Section,
      (sections.filter (sectionContains (scrollY + 100))).getLast? = some sec →
      (updateActiveNavLink scrollY sections navLinks).length = navLinks.length ∧
      ∀ (i : Nat) (link : NavLink), navLinks[i]? = some link →
        ∃ updated : NavLink,
          (updateActiveNavLink scrollY sections navLinks)[i]? = some updated ∧
          updated.href = link.href ∧
          ("active" ∈ updated.classes ↔ link.href = some ("#" ++ sec.id))) ∧
    (sections.filter (sectionContains (scrollY + 100)) = [] →
      updateActiveNavLink scrollY sections navLinks = navLinks) := by
  constructor
  · intro sec hsec
    rw [updateActiveNavLink_eq, hsec]
    refine ⟨by simp, ?_⟩
    intro i link hlink
    refine ⟨highlightLink sec.id link, ?_, highlightLink_href _ _, highlightLink_active _ _⟩
    simp [hlink]
  · intro hnone
    rw [updateActiveNavLink_eq, hnone]
    rfl

theorem C7_updateActiveNavLink_witness :
    ([⟨0, 500, "home"⟩, ⟨600, 400, "features"⟩] : List Section).filter
        (sectionContains (650 + 100)) = [⟨600, 400, "features"⟩] ∧
    updateActiveNavLink 650 [⟨0, 500, "home"⟩, ⟨600, 400, "features"⟩]
        [⟨some "#home", ["nav-link", "active"]⟩, ⟨some "#features", ["nav-link"]⟩]
      = [⟨some "#home", ["nav-link"]⟩, ⟨some "#features", ["nav-link", "active"]⟩] ∧
    (updateActiveNavLink 650 [⟨0, 500, "home"⟩, ⟨600, 400, "features"⟩]
        [⟨some "#home", ["nav-link", "active"]⟩, ⟨some "#features", ["nav-link"]⟩]).length
      = 2 :=
  ⟨by decide, by decide,
    ((C7_updateActiveNavLink 650 [⟨0, 500, "home"⟩, ⟨600, 400, "features"⟩]
      [⟨some "#home", ["nav-link", "active"]⟩, ⟨some "#features", ["nav-link"]⟩]).1
      ⟨600, 400, "features"⟩ (by decide)).1⟩

/-! ### Claims C8 and C9 -/

/-- With no timeout pending, a valid submission followed by its timeout brings back
the label the button had, clears the colour and empties the input. -/
theorem submit_then_revert (f : SignupForm) (hv : validEmail f.inputValue = true)
    (hidle : f.timers = []) :
    fireAllTimers (submit f) =
      { buttonText := f.buttonText, buttonBackground := "", inputValue := "", timers := [] } := by
  simp [submit, hv, hidle, fireAllTimers, revertForm]

/-- C8 fails on the code when a revert is still pending: the second valid submission
captures the success label as `originalText`, so after both timeouts have fired the
button reads `'✓ Subscribed!'` for good instead of `'Subscribe'`. -/
theorem C8_second_submit_keeps_success_label :
    submit (typeEmail "a@b.com" signupForm0) =
      { buttonText := "✓ Subscribed!", buttonBackground := "var(--color-accent-green)",
        inputValue := "a@b.com", timers := ["Subscribe"] } ∧
    submit (submit (typeEmail "a@b.com" signupForm0)) =
      { buttonText := "✓ Subscribed!", buttonBackground := "var(--color-accent-green)",
        inputValue := "a@b.com", timers := ["Subscribe", "✓ Subscribed!"] } ∧
    fireAllTimers (submit (submit (typeEmail "a@b.com" signupForm0))) =
      { buttonText := "✓ Subscribed!", buttonBackground := "", inputValue := "",
        timers := [] } ∧
    ((fireTimer (submit (submit (typeEmail "a@b.com" signupForm0)))).bind fireTimer).map
        (fun f => f.buttonText) = some "✓ Subscribed!" ∧
    fireAllTimers (submit (typeEmail "a@b.com" signupForm0)) = signupForm0 := by
  decide

/-- C9: on submit with input value `v`, the success transition (success label, green
background, one more timeout scheduled) happens if and only if `v` is non-empty and
contains `'@'`; for every other `v` the handler leaves the form as it was, label,
colour and input included, and schedules no timeout. -/
theorem C9_submit_validation (f : SignupForm) :
    (validEmail f.inputValue = true ↔ (f.inputValue ≠ "" ∧ '@' ∈ f.inputValue.data)) ∧
    ((submit f).timers.length = f.timers.length + 1 ↔
      (f.inputValue ≠ "" ∧ '@' ∈ f.inputValue.data)) ∧
    ((f.inputValue ≠ "" ∧ '@' ∈ f.inputValue.data) →
      submit f =
        { buttonText := "✓ Subscribed!", buttonBackground := "var(--color-accent-green)",
          inputValue := f.inputValue, timers := f.timers ++ [f.buttonText] }) ∧
    (¬ (f.inputValue ≠ "" ∧ '@' ∈ f.inputValue.data) → submit f = f) := by
  have hv : validEmail f.inputValue = true ↔ (f.inputValue ≠ "" ∧ '@' ∈ f.inputValue.data) := by
    simp [validEmail]
  refine ⟨hv, ?_, ?_, ?_⟩
  · by_cases h : validEmail f.inputValue = true
    · simp only [submit, h, if_true, List.length_append, List.length_singleton, true_iff]
      exact hv.1 h
    · have h2 : ¬ (f.inputValue ≠ "" ∧ '@' ∈ f.inputValue.data) := fun hc => h (hv.2 hc)
      simp only [submit, h, h2, iff_false]
      simp
  · intro hc
    simp [submit, hv.2 hc]
  · intro hc
    have h : ¬ validEmail f.inputValue = true := fun h => hc (hv.1 h)
    simp [submit, h]

theorem C9_submit_validation_witness :
    submit (typeEmail "not-an-email" signupForm0) = typeEmail "not-an-email" signupForm0 ∧
    (typeEmail "not-an-email" signupForm0).buttonText = "Subscribe" :=
  ⟨(C9_submit_validation (typeEmail "not-an-email" signupForm0)).2.2.2 (by decide),
    by decide⟩

/-! ### Claim C10 -/

/-- C10 fails on the code.  When the document is no longer loading, the start-up
statement calls `App.initHeroAnimations` before the assignment that defines it: the
script stops with a `TypeError` after `App.init` alone has run.  (On a loading
document all seven set-ups run at `DOMContentLoaded`.)  Three listeners also throw on
a missing element: Escape without `#product-overlay`, an anchor click without
`.header`, and a product card click without `#product-overlay`. -/
theorem C10_startup_and_handlers_throw :
    runScript false =
      { defined := [.init], ran := [.init], listening := false,
        error := some "TypeError: App.initHeroAnimations is not a function" } ∧
    domContentLoaded (runScript false) = runScript false ∧
    (domContentLoaded (runScript true)).ran = startupCalls ∧
    (domContentLoaded (runScript true)).error = none ∧
    overlayKeydown "Escape" { fullPage with productOverlay := none }
      = .error "TypeError: productOverlay is null" ∧
    anchorClick "#features" (some 600) none fullPage
      = .error "TypeError: document.querySelector('.header') is null" ∧
    productCardClick widgetCard { fullPage with productOverlay := none }
      = .error "TypeError: productOverlay is null" := by
  refine ⟨by decide, by decide, by decide, by decide, rfl, rfl, rfl⟩

/-! ### Claim C11 -/

theorem revealEntries_targets (interval : Nat) (entries : List ObserverEntry) (index : Nat)
    (s : RevealObserver) :
    (revealEntries interval index entries s).targets =
      s.targets.filter
        (fun t => !(entries.any (fun x => x.isIntersecting && x.target == t))) := by
  induction entries generalizing index s with
  | nil => simp [revealEntries]
  | cons entry rest ih =>
    obtain ⟨target, isInt⟩ := entry
    simp only [revealEntries]
    rw [ih]
    cases isInt with
    | false => simp
    | true =>
      simp only [if_true, List.filter_filter, List.any_cons, Bool.true_and]
      apply List.filter_congr
      intro t _
      by_cases h1 : target = t
      · simp [h1]
      · have hb1 : (target == t) = false := by simpa using h1
        have hb2 : (t != target) = true := by
          simpa [bne_iff_ne] using fun h : t = target => h1 h.symm
        rw [hb1, hb2]
        simp

theorem revealEntries_scheduled (interval : Nat) (entries : List ObserverEntry) (index : Nat)
    (s : RevealObserver) (e : Nat) :
    timesScheduled e (revealEntries interval index entries s) =
      timesScheduled e s + intersectingIn e entries := by
  unfold intersectingIn
  induction entries generalizing index s with
  | nil => simp [revealEntries]
  | cons entry rest ih =>
    obtain ⟨target, isInt⟩ := entry
    simp only [revealEntries]
    rw [ih]
    cases isInt with
    | false => simp [List.filter_cons]
    | true =>
      by_cases he : target = e
      · simp [timesScheduled, List.filter_cons, List.filter_append, he]
        omega
      · simp [timesScheduled, List.filter_cons, List.filter_append, he]

theorem revealEntries_unobserved (interval : Nat) (entries : List ObserverEntry) (index : Nat)
    (s : RevealObserver) (e : Nat) :
    timesUnobserved e (revealEntries interval index entries s) =
      timesUnobserved e s + intersectingIn e entries := by
  unfold intersectingIn
  induction entries generalizing index s with
  | nil => simp [revealEntries]
  | cons entry rest ih =>
    obtain ⟨target, isInt⟩ := entry
    simp only [revealEntries]
    rw [ih]
    cases isInt with
    | false => simp [List.filter_cons]
    | true =>
      by_cases he : target = e
      · simp [timesUnobserved, List.filter_cons, List.filter_append, he]
        omega
      · simp [timesUnobserved, List.filter_cons, List.filter_append, he]

/-- The callback counts: over any batches, card `e` gets one timeout and one `unobserve`
call for each entry that reports it intersecting. -/
theorem revealCallbacks_counts (interval : Nat) (batches : List (List ObserverEntry))
    (s : RevealObserver) (e : Nat) :
    timesScheduled e (revealCallbacks interval batches s) =
      timesScheduled e s + intersectingReports e batches ∧
    timesUnobserved e (revealCallbacks interval batches s) =
      timesUnobserved e s + intersectingReports e batches := by
  induction batches generalizing s with
  | nil => simp [revealCallbacks, intersectingReports]
  | cons entries rest ih =>
    have hrun : revealCallbacks interval (entries :: rest) s =
        revealCallbacks interval rest (revealCallback interval entries s) := rfl
    have hsum : intersectingReports e (entries :: rest) =
        intersectingIn e entries + intersectingReports e rest := by
      simp [intersectingReports]
    obtain ⟨h1, h2⟩ := ih (revealCallback interval entries s)
    rw [hrun, h1, h2, hsum]
    unfold revealCallback
    rw [revealEntries_scheduled, revealEntries_unobserved]
    omega

theorem intersectingIn_pos_iff (e : Nat) (entries : List ObserverEntry) :
    0 < intersectingIn e entries ↔
      entries.any (fun x => x.isIntersecting && x.target == e) = true := by
  unfold intersectingIn
  constructor
  · intro hpos
    obtain ⟨x, hx⟩ := List.exists_mem_of_length_pos hpos
    obtain ⟨hx1, hx2⟩ := List.mem_filter.1 hx
    exact List.any_eq_true.2 ⟨x, hx1, hx2⟩
  · intro hany
    obtain ⟨x, hx, hp⟩ := List.any_eq_true.1 hany
    exact List.length_pos_of_mem (List.mem_filter.2 ⟨hx, hp⟩)

theorem isObserved_iff (e : Nat) (s : RevealObserver) :
    isObserved e s = true ↔ e ∈ s.targets := by
  simp [isObserved]

theorem isObserved_revealCallback (interval : Nat) (entries : List ObserverEntry)
    (s : RevealObserver) (e : Nat) :
    isObserved e (revealCallback interval entries s) = true ↔
      isObserved e s = true ∧ intersectingIn e entries = 0 := by
  have hpos := intersectingIn_pos_iff e entries
  rw [isObserved_iff, isObserved_iff]
  unfold revealCallback
  rw [revealEntries_targets]
  simp only [List.mem_filter, Bool.not_eq_true']
  constructor
  · rintro ⟨hm, hany⟩
    refine ⟨hm, ?_⟩
    by_contra hne
    have h1 : 0 < intersectingIn e entries := Nat.pos_of_ne_zero hne
    rw [hpos.1 h1] at hany
    exact absurd hany (by decide)
  · rintro ⟨hm, hz⟩
    refine ⟨hm, ?_⟩
    cases hany : entries.any (fun x => x.isIntersecting && x.target == e) with
    | false => rfl
    | true =>
      have := hpos.2 hany
      omega

/-- A batch that lists each card at most once reports card `e` intersecting at most once. -/
theorem intersectingIn_le_one (e : Nat) (entries : List ObserverEntry)
    (hnodup : (entries.map fun x => x.target).Nodup) : intersectingIn e entries ≤ 1 := by
  unfold intersectingIn
  induction entries with
  | nil => simp
  | cons entry rest ih =>
    obtain ⟨target, isInt⟩ := entry
    simp only [List.map_cons, List.nodup_cons] at hnodup
    obtain ⟨hnot, hrest⟩ := hnodup
    have ih' := ih hrest
    by_cases he : target = e
    · subst he
      have hz : (rest.filter (fun x => x.isIntersecting && x.target == target)).length = 0 := by
        rw [List.length_eq_zero, List.filter_eq_nil_iff]
        intro x hx hp
        simp only [Bool.and_eq_true, beq_iff_eq] at hp
        exact hnot (List.mem_map.2 ⟨x, hx, hp.2⟩)
      rw [List.filter_cons]
      split
      · simp [hz]
      · omega
    · have hb : (isInt && target == e) = false := by simp [he]
      rw [List.filter_cons]
      simp only [hb]
      simpa using ih'

/-- A batch that only lists observed cards does not report an unobserved card. -/
theorem intersectingIn_unobserved (e : Nat) (entries : List ObserverEntry) (s : RevealObserver)
    (hall : entries.all (fun x => isObserved x.target s) = true)
    (hobs : isObserved e s = false) : intersectingIn e entries = 0 := by
  unfold intersectingIn
  rw [List.length_eq_zero, List.filter_eq_nil_iff]
  intro x hx hp
  simp only [Bool.and_eq_true, beq_iff_eq] at hp
  have := List.all_eq_true.1 hall x hx
  rw [hp.2, hobs] at this
  exact absurd this (by decide)

/-- Under the condition `reportedWhileObserved`, card `e` is reported intersecting at
most once, and not at all once it is unobserved; it stays observed exactly as long as
it has not been reported intersecting. -/
theorem reportedWhileObserved_once (interval : Nat) (batches : List (List ObserverEntry))
    (s : RevealObserver) (e : Nat)
    (hrep : reportedWhileObserved interval s batches = true) :
    intersectingReports e batches ≤ 1 ∧
    (isObserved e s = false → intersectingReports e batches = 0) ∧
    (isObserved e (revealCallbacks interval batches s) = true ↔
      isObserved e s = true ∧ intersectingReports e batches = 0) := by
  induction batches generalizing s with
  | nil =>
    simp [intersectingReports, revealCallbacks]
  | cons entries rest ih =>
    simp only [reportedWhileObserved, Bool.and_eq_true, decide_eq_true_eq] at hrep
    obtain ⟨⟨hnodup, hall⟩, hrest⟩ := hrep
    obtain ⟨ih1, ih2, ih3⟩ := ih (revealCallback interval entries s) hrest
    have hrun : revealCallbacks interval (entries :: rest) s =
        revealCallbacks interval rest (revealCallback interval entries s) := rfl
    have hsum : intersectingReports e (entries :: rest) =
        intersectingIn e entries + intersectingReports e rest := by
      simp [intersectingReports]
    have hle := intersectingIn_le_one e entries hnodup
    have hcb := isObserved_revealCallback interval entries s e
    rw [hrun, hsum, ih3, hcb]
    have hgone : intersectingIn e entries = 1 → intersectingReports e rest = 0 := by
      intro h1
      apply ih2
      cases hobs : isObserved e (revealCallback interval entries s) with
      | false => rfl
      | true =>
        have := (hcb.1 hobs).2
        omega
    refine ⟨?_, ?_, ?_⟩
    · by_cases h0 : intersectingIn e entries = 0
      · omega
      · have h1 : intersectingIn e entries = 1 := by omega
        have := hgone h1
        omega
    · intro hobs
      have h0 := intersectingIn_unobserved e entries s hall hobs
      have hobs' : isObserved e (revealCallback interval entries s) = false := by
        cases hc : isObserved e (revealCallback interval entries s) with
        | false => rfl
        | true =>
          have := (hcb.1 hc).1
          rw [hobs] at this
          exact absurd this (by decide)
      have := ih2 hobs'
      omega
    · constructor
      · rintro ⟨⟨ho, hz⟩, hr⟩
        exact ⟨ho, by omega⟩
      · rintro ⟨ho, hz⟩
        exact ⟨⟨ho, by omega⟩, by omega⟩

theorem isObserved_observeCards (n e : Nat) (he : e < n) :
    isObserved e (observeCards n) = true := by
  simp [isObserved, observeCards, List.mem_range, he]

theorem intersectingReports_append (e : Nat) (l1 l2 : List (List ObserverEntry)) :
    intersectingReports e (l1 ++ l2) = intersectingReports e l1 + intersectingReports e l2 := by
  simp [intersectingReports]

/-- C11, as stated, fails on a callback whose batch reports a card three times, in, out
and in again: the callback has no guard of its own, so it schedules the animation of
card 0 twice (at 0 ms and at 200 ms) and calls `unobserve` on it twice. -/
theorem C11_callback_has_no_once_guard :
    revealCallbacks 100 [[⟨0, true⟩, ⟨0, false⟩, ⟨0, true⟩]] (observeCards 1) =
      { targets := [], scheduled := [(0, 0), (0, 200)], unobserveCalls := [0, 0] } ∧
    timesScheduled 0
      (revealCallbacks 100 [[⟨0, true⟩, ⟨0, false⟩, ⟨0, true⟩]] (observeCards 1)) = 2 ∧
    timesUnobserved 0
      (revealCallbacks 100 [[⟨0, true⟩, ⟨0, false⟩, ⟨0, true⟩]] (observeCards 1)) = 2 := by
  decide

/-- C11 (amended): for every card registered with a reveal observer and every sequence of
observer callbacks, the callback schedules the reveal animation and unobserves the card
once for each entry that reports the card intersecting, and never on another entry.
Hence, in every sequence in which each callback lists a card at most once and only
while the observer still observes it, the animation is scheduled at most once and the
card is unobserved at most once, both at its first intersecting report and not before;
it is then no longer observed, and no later callback schedules or unobserves it. -/
theorem C11_reveal_one_shot (interval n e : Nat) (batches : List (List ObserverEntry))
    (he : e < n) :
    timesScheduled e (revealCallbacks interval batches (observeCards n)) =
      intersectingReports e batches ∧
    timesUnobserved e (revealCallbacks interval batches (observeCards n)) =
      intersectingReports e batches ∧
    (reportedWhileObserved interval (observeCards n) batches = true →
      timesScheduled e (revealCallbacks interval batches (observeCards n)) ≤ 1 ∧
      timesUnobserved e (revealCallbacks interval batches (observeCards n)) ≤ 1 ∧
      (isObserved e (revealCallbacks interval batches (observeCards n)) = true ↔
        intersectingReports e batches = 0) ∧
      ∀ (before : List (List ObserverEntry)) (entries : List ObserverEntry)
        (later : List (List ObserverEntry)),
        batches = before ++ entries :: later → intersectingReports e before = 0 →
        0 < intersectingIn e entries →
        timesScheduled e (revealCallbacks interval before (observeCards n)) = 0 ∧
        timesUnobserved e (revealCallbacks interval before (observeCards n)) = 0 ∧
        timesScheduled e (revealCallbacks interval (before ++ [entries]) (observeCards n)) = 1 ∧
        timesUnobserved e (revealCallbacks interval (before ++ [entries]) (observeCards n)) = 1 ∧
        timesScheduled e (revealCallbacks interval batches (observeCards n)) = 1 ∧
        timesUnobserved e (revealCallbacks interval batches (observeCards n)) = 1 ∧
        isObserved e (revealCallbacks interval batches (observeCards n)) = false) := by
  have hs0 : timesScheduled e (observeCards n) = 0 := rfl
  have hu0 : timesUnobserved e (observeCards n) = 0 := rfl
  have counts : ∀ l : List (List ObserverEntry),
      timesScheduled e (revealCallbacks interval l (observeCards n)) =
        intersectingReports e l ∧
      timesUnobserved e (revealCallbacks interval l (observeCards n)) =
        intersectingReports e l := by
    intro l
    obtain ⟨h1, h2⟩ := revealCallbacks_counts interval l (observeCards n) e
    rw [h1, h2, hs0, hu0]
    omega
  obtain ⟨c1, c2⟩ := counts batches
  refine ⟨c1, c2, ?_⟩
  intro hrep
  obtain ⟨hle, _, hobs⟩ := reportedWhileObserved_once interval batches (observeCards n) e hrep
  have hobs' : isObserved e (revealCallbacks interval batches (observeCards n)) = true ↔
      intersectingReports e batches = 0 := by
    rw [hobs]
    simp [isObserved_observeCards n e he]
  refine ⟨by omega, by omega, hobs', ?_⟩
  intro before entries later hsplit hbefore hin
  obtain ⟨b1, b2⟩ := counts before
  obtain ⟨d1, d2⟩ := counts (before ++ [entries])
  have hsum : intersectingReports e batches =
      intersectingReports e before + (intersectingIn e entries +
        intersectingReports e later) := by
    rw [hsplit, intersectingReports_append]
    simp [intersectingReports]
  have hmid : intersectingReports e (before ++ [entries]) =
      intersectingReports e before + intersectingIn e entries := by
    rw [intersectingReports_append]
    simp [intersectingReports]
  have htotal : intersectingReports e batches = 1 := by omega
  refine ⟨by omega, by omega, by omega, by omega, by omega, by omega, ?_⟩
  cases hc : isObserved e (revealCallbacks interval batches (observeCards n)) with
  | false => rfl
  | true =>
    have := hobs'.1 hc
    omega

theorem C11_reveal_one_shot_witness :
    (1 : Nat) < 3 ∧
    reportedWhileObserved 100 (observeCards 3)
      [[⟨0, false⟩, ⟨1, false⟩, ⟨2, false⟩], [⟨1, true⟩, ⟨2, true⟩], [⟨0, true⟩]] = true ∧
    revealCallbacks 100
      [[⟨0, false⟩, ⟨1, false⟩, ⟨2, false⟩], [⟨1, true⟩, ⟨2, true⟩], [⟨0, true⟩]]
      (observeCards 3) =
      { targets := [], scheduled := [(1, 0), (2, 100), (0, 0)], unobserveCalls := [1, 2, 0] } ∧
    timesScheduled 1 (revealCallbacks 100
      [[⟨0, false⟩, ⟨1, false⟩, ⟨2, false⟩], [⟨1, true⟩, ⟨2, true⟩], [⟨0, true⟩]]
      (observeCards 3)) ≤ 1 :=
  ⟨by decide, by decide, by decide,
    ((C11_reveal_one_shot 100 3 1
      [[⟨0, false⟩, ⟨1, false⟩, ⟨2, false⟩], [⟨1, true⟩, ⟨2, true⟩], [⟨0, true⟩]]
      (by decide)).2.2 (by decide)).1⟩

/-! ### Claim C12 -/

theorem closeMobileMenu_inv (p : Page) (h1 : p.menuToggle = true) (h2 : p.mobileNav = true) :
    MenuInv (closeMobileMenu p) ∧ (closeMobileMenu p).mobileMenuOpen = false := by
  have hc : closeMobileMenu p =
      { p with
        ariaExpanded := some "false"
        mobileNavClasses := classListRemove "active" p.mobileNavClasses
        mobileMenuOpen := false
        bodyOverflow := "" } := by
    simp [closeMobileMenu, h1, h2]
  rw [hc]
  refine ⟨⟨h1, h2, ?_, ?_⟩, rfl⟩
  · constructor
    · intro h; exact absurd h (by simp)
    · rintro ⟨h, _⟩
      have hne : ("false" : String) ≠ "true" := by decide
      exact absurd (Option.some.inj h) hne
  · intro h; exact absurd h (by simp)

theorem openMobileMenu_inv (p : Page) (h1 : p.menuToggle = true) (h2 : p.mobileNav = true) :
    MenuInv (openMobileMenu p) ∧ (openMobileMenu p).mobileMenuOpen = true := by
  have ho : openMobileMenu p =
      { p with
        ariaExpanded := some "true"
        mobileNavClasses := classListAdd "active" p.mobileNavClasses
        mobileMenuOpen := true
        bodyOverflow := "hidden" } := by
    simp [openMobileMenu, h1, h2]
  rw [ho]
  refine ⟨⟨h1, h2, ?_, ?_⟩, rfl⟩
  · constructor
    · intro _
      exact ⟨rfl, (mem_classListAdd _ _ _).2 (Or.inl rfl)⟩
    · intro _; rfl
  · intro _; rfl

/-- A listener that leaves the menu part alone keeps the invariant if it does not
unlock scroll while the menu is open. -/
theorem MenuInv_of_sameMenu (p q : Page) (hinv : MenuInv p) (hsame : SameMenu p q)
    (hlock : q.mobileMenuOpen = true → q.bodyOverflow = "hidden") : MenuInv q := by
  obtain ⟨h1, h2, h3, _⟩ := hinv
  obtain ⟨s1, s2, s3, s4, s5⟩ := hsame
  refine ⟨by rw [s1, h1], by rw [s2, h2], ?_, hlock⟩
  rw [s3, s4, s5]
  exact h3

theorem documentClick_inv (b : Bool) (p : Page) (hinv : MenuInv p) :
    MenuInv (documentClick b p) ∧
    ((documentClick b p).mobileMenuOpen = true → p.mobileMenuOpen = true) := by
  have h1 := hinv.1
  have h2 := hinv.2.1
  cases b with
  | true =>
    have hd : documentClick true p = p := by simp [documentClick]
    rw [hd]
    exact ⟨hinv, id⟩
  | false =>
    have hd : documentClick false p = closeMobileMenu p := by simp [documentClick, h1, h2]
    rw [hd]
    obtain ⟨hc, hclosed⟩ := closeMobileMenu_inv p h1 h2
    exact ⟨hc, fun h => absurd h (by simp [hclosed])⟩

/-- An outside click closes the menu whatever the scroll lock was. -/
theorem documentClick_false_inv (p : Page) (h1 : p.menuToggle = true) (h2 : p.mobileNav = true) :
    MenuInv (documentClick false p) ∧ (documentClick false p).mobileMenuOpen = false := by
  have hd : documentClick false p = closeMobileMenu p := by simp [documentClick, h1, h2]
  rw [hd]
  exact closeMobileMenu_inv p h1 h2

theorem sameMenu_refl (p : Page) : SameMenu p p := ⟨rfl, rfl, rfl, rfl, rfl⟩

theorem orUnchanged_sameMenu (p : Page) (r : Except String Page)
    (h : ∀ q, r = .ok q → SameMenu p q) : SameMenu p (orUnchanged p r) := by
  cases r with
  | error msg => exact sameMenu_refl p
  | ok q => exact h q rfl

theorem productCardClick_sameMenu (card : ProductCard) (p q : Page)
    (h : productCardClick card p = .ok q) : SameMenu p q ∧ q.bodyOverflow = "hidden" := by
  unfold productCardClick at h
  repeat' split at h
  all_goals cases h
  all_goals exact ⟨⟨rfl, rfl, rfl, rfl, rfl⟩, rfl⟩

theorem overlayCloseClick_sameMenu (p : Page) :
    SameMenu p (orUnchanged p (overlayCloseClick p)) := by
  apply orUnchanged_sameMenu
  intro q h
  unfold overlayCloseClick at h
  split at h
  all_goals cases h
  all_goals exact ⟨rfl, rfl, rfl, rfl, rfl⟩

theorem overlayClick_sameMenu (b : Bool) (p : Page) : SameMenu p (overlayClick b p) := by
  unfold overlayClick
  cases p.productOverlay with
  | none => exact ⟨rfl, rfl, rfl, rfl, rfl⟩
  | some classes => cases b <;> exact ⟨rfl, rfl, rfl, rfl, rfl⟩

theorem overlayKeydown_sameMenu (key : String) (p : Page) :
    SameMenu p (orUnchanged p (overlayKeydown key p)) := by
  apply orUnchanged_sameMenu
  intro q h
  unfold overlayKeydown at h
  repeat' split at h
  all_goals cases h
  all_goals exact ⟨rfl, rfl, rfl, rfl, rfl⟩

theorem anchorListener_closed (validSelector : Bool) (href : String)
    (target headerHeight : Option Int) (p : Page) (hclosed : p.mobileMenuOpen = false) :
    orUnchanged p ((anchorListener validSelector href target headerHeight p).map Prod.snd)
      = p := by
  cases hh : (href != "#") <;> cases validSelector <;> cases target <;>
    cases headerHeight <;>
    simp [anchorListener, anchorClick, orUnchanged, Except.map, hclosed, hh]

/-- Every event but a click on an overlay element inside the header keeps the
invariant, and only a toggle click opens a closed menu. -/
theorem menuStep_inv (p : Page) (e : MenuEvent) (hinv : MenuInv p)
    (hout : overlayOutsideHeader e = true) :
    MenuInv (menuStep p e) ∧
    (p.mobileMenuOpen = false → (menuStep p e).mobileMenuOpen = true →
      ∃ b, e = .toggleClick b) := by
  have hinv0 := hinv
  obtain ⟨h1, h2, h3, h4⟩ := hinv
  cases e with
  | toggleClick insideHeader =>
    have ht : MenuInv (menuToggleClick p) := by
      unfold menuToggleClick toggleMobileMenu
      simp only [h1, h2, Bool.and_self, if_true]
      split
      · exact (closeMobileMenu_inv p h1 h2).1
      · exact (openMobileMenu_inv p h1 h2).1
    exact ⟨(documentClick_inv _ _ ht).1, fun _ _ => ⟨insideHeader, rfl⟩⟩
  | drawerLinkClick href validSelector target headerHeight insideHeader =>
    have hl : mobileNavLinkClick p = closeMobileMenu p := by
      simp [mobileNavLinkClick, h1, h2]
    obtain ⟨hc, hclosed⟩ := closeMobileMenu_inv p h1 h2
    have hp2 : (if isInPageAnchor href then
          orUnchanged (mobileNavLinkClick p)
            ((anchorListener validSelector href target headerHeight
              (mobileNavLinkClick p)).map Prod.snd)
        else mobileNavLinkClick p) = closeMobileMenu p := by
      rw [hl]
      split
      · exact anchorListener_closed validSelector href target headerHeight _ hclosed
      · rfl
    have hstep : menuStep p
        (.drawerLinkClick href validSelector target headerHeight insideHeader) =
        documentClick insideHeader (closeMobileMenu p) := by
      simp only [menuStep]
      rw [hp2]
    rw [hstep]
    obtain ⟨hd, hopen⟩ := documentClick_inv insideHeader _ hc
    exact ⟨hd, fun _ h => absurd (hopen h) (by simp [hclosed])⟩
  | outsideClick =>
    obtain ⟨hd, hclosed⟩ := documentClick_false_inv p h1 h2
    exact ⟨hd, fun _ h => absurd h (by simp [menuStep, hclosed])⟩
  | escape =>
    have hk : menuKeydown "Escape" p = closeMobileMenu p := by
      simp [menuKeydown, h1, h2]
    obtain ⟨hc, hclosed⟩ := closeMobileMenu_inv p h1 h2
    have hsame := overlayKeydown_sameMenu "Escape" (closeMobileMenu p)
    have hstep : menuStep p .escape =
        orUnchanged (closeMobileMenu p) (overlayKeydown "Escape" (closeMobileMenu p)) := by
      simp only [menuStep]
      rw [hk]
    rw [hstep]
    have hq : (orUnchanged (closeMobileMenu p)
        (overlayKeydown "Escape" (closeMobileMenu p))).mobileMenuOpen = false := by
      rw [hsame.2.2.2.2, hclosed]
    exact ⟨MenuInv_of_sameMenu _ _ hc hsame (fun h => absurd h (by simp [hq])),
      fun _ h => absurd h (by simp [hq])⟩
  | resize innerWidth =>
    simp only [menuStep, resizeTimeout]
    split
    · obtain ⟨hc, hclosed⟩ := closeMobileMenu_inv p h1 h2
      exact ⟨hc, fun _ h => absurd h (by simp [hclosed])⟩
    · exact ⟨hinv0, fun hc h => absurd h (by simp [hc])⟩
  | cardClick card =>
    have hq : MenuInv (orUnchanged p (productCardClick card p)) ∧
        (orUnchanged p (productCardClick card p)).mobileMenuOpen = p.mobileMenuOpen := by
      cases hr : productCardClick card p with
      | error msg => exact ⟨hinv0, rfl⟩
      | ok q =>
        obtain ⟨hsame, hhidden⟩ := productCardClick_sameMenu card p q hr
        exact ⟨MenuInv_of_sameMenu p q hinv0 hsame (fun _ => hhidden), hsame.2.2.2.2⟩
    obtain ⟨hd, hopen⟩ := documentClick_inv card.insideHeader _ hq.1
    refine ⟨hd, fun hc h => ?_⟩
    have := hopen h
    rw [hq.2, hc] at this
    exact absurd this (by simp)
  | overlayCloseClick insideHeader =>
    have hb : insideHeader = false := by simpa [overlayOutsideHeader] using hout
    subst hb
    have hsame := overlayCloseClick_sameMenu p
    obtain ⟨hd, hclosed⟩ := documentClick_false_inv (orUnchanged p (overlayCloseClick p))
      (by rw [hsame.1, h1]) (by rw [hsame.2.1, h2])
    exact ⟨hd, fun _ h => absurd h (by simp [menuStep, hclosed])⟩
  | overlayBackdropClick insideHeader =>
    have hb : insideHeader = false := by simpa [overlayOutsideHeader] using hout
    subst hb
    have hsame := overlayClick_sameMenu true p
    obtain ⟨hd, hclosed⟩ := documentClick_false_inv (overlayClick true p)
      (by rw [hsame.1, h1]) (by rw [hsame.2.1, h2])
    exact ⟨hd, fun _ h => absurd h (by simp [menuStep, hclosed])⟩

theorem documentClick_true (p : Page) : documentClick true p = p := by
  simp [documentClick]

/-- Whatever the event, a closed menu is opened by a toggle click only. -/
theorem menuStep_opens_only_by_toggle (p : Page) (e : MenuEvent) (hinv : MenuInv p)
    (hc : p.mobileMenuOpen = false) (hopen : (menuStep p e).mobileMenuOpen = true) :
    ∃ b, e = .toggleClick b := by
  cases hout : overlayOutsideHeader e with
  | true => exact (menuStep_inv p e hinv hout).2 hc hopen
  | false =>
    cases e with
    | overlayCloseClick insideHeader =>
      have hb : insideHeader = true := by simpa [overlayOutsideHeader] using hout
      subst hb
      simp only [menuStep, documentClick_true] at hopen
      rw [(overlayCloseClick_sameMenu p).2.2.2.2, hc] at hopen
      exact absurd hopen (by simp)
    | overlayBackdropClick insideHeader =>
      have hb : insideHeader = true := by simpa [overlayOutsideHeader] using hout
      subst hb
      simp only [menuStep, documentClick_true] at hopen
      rw [(overlayClick_sameMenu true p).2.2.2.2, hc] at hopen
      exact absurd hopen (by simp)
    | toggleClick b => exact ⟨b, rfl⟩
    | drawerLinkClick _ _ _ _ _ => simp [overlayOutsideHeader] at hout
    | outsideClick => simp [overlayOutsideHeader] at hout
    | escape => simp [overlayOutsideHeader] at hout
    | resize _ => simp [overlayOutsideHeader] at hout
    | cardClick _ => simp [overlayOutsideHeader] at hout

theorem menuRun_inv (evs : List MenuEvent) (p : Page) (hinv : MenuInv p)
    (hout : ∀ e ∈ evs, overlayOutsideHeader e = true) :
    MenuInv (menuRun p evs) := by
  induction evs generalizing p with
  | nil => exact hinv
  | cons e es ih =>
    exact ih (menuStep p e) (menuStep_inv p e hinv (hout e (List.mem_cons_self _ _))).1
      (fun e1 h1 => hout e1 (List.mem_cons_of_mem _ h1))

/-- C12, as stated, fails when the overlay's close button lies inside `.header`: after a
product card click, a toggle click and a click on that close button, the close
listener has reset body overflow to `''` and the `document` listener, finding the
target inside the header, has not closed the menu: the flag is true and scroll is not
locked. -/
theorem C12_overlay_close_inside_header_unlocks :
    fullPage.menuToggle = true ∧ fullPage.mobileNav = true ∧
    fullPage.mobileMenuOpen = false ∧
    (menuRun fullPage
      [.cardClick widgetCard, .toggleClick true, .overlayCloseClick true]).mobileMenuOpen
      = true ∧
    (menuRun fullPage
      [.cardClick widgetCard, .toggleClick true, .overlayCloseClick true]).bodyOverflow
      = "" ∧
    (menuRun fullPage
      [.cardClick widgetCard, .toggleClick true, .overlayCloseClick true]).ariaExpanded
      = some "true" := by
  decide

/-- C12 (amended): with the menu toggle and the drawer present, in every state reachable
from a closed initial state by toggle clicks, drawer-link clicks, clicks outside the
header, Escape presses, debounced resizes and product-overlay open and close events
whose close button and backdrop lie outside the header, taken at the end of each
event's handlers: `state.mobileMenuOpen` is true exactly when `aria-expanded` is
`'true'` and the drawer has class `active`; when it is true, body overflow is
`'hidden'`; the flag becomes true only by a toggle click while closed (and a click on a
toggle inside the header does open a closed menu); Escape, and the resize timeout at a
width of at least 768 px, leave it false. -/
theorem C12_menu_invariant (p0 : Page) (evs : List MenuEvent)
    (htoggle : p0.menuToggle = true) (hnav : p0.mobileNav = true)
    (hclosed : p0.mobileMenuOpen = false)
    (hmarkup : ¬ (p0.ariaExpanded = some "true" ∧ "active" ∈ p0.mobileNavClasses))
    (houtside : ∀ e ∈ evs, overlayOutsideHeader e = true) :
    ((menuRun p0 evs).mobileMenuOpen = true ↔
      ((menuRun p0 evs).ariaExpanded = some "true" ∧
        "active" ∈ (menuRun p0 evs).mobileNavClasses)) ∧
    ((menuRun p0 evs).mobileMenuOpen = true → (menuRun p0 evs).bodyOverflow = "hidden") ∧
    (∀ e : MenuEvent, (menuRun p0 evs).mobileMenuOpen = false →
      (menuStep (menuRun p0 evs) e).mobileMenuOpen = true → ∃ b, e = .toggleClick b) ∧
    ((menuRun p0 evs).mobileMenuOpen = false →
      (menuStep (menuRun p0 evs) (.toggleClick true)).mobileMenuOpen = true) ∧
    (menuStep (menuRun p0 evs) .escape).mobileMenuOpen = false ∧
    (∀ innerWidth : Int, 768 ≤ innerWidth →
      (menuStep (menuRun p0 evs) (.resize innerWidth)).mobileMenuOpen = false) := by
  have hinv0 : MenuInv p0 :=
    ⟨htoggle, hnav, ⟨fun h => absurd h (by simp [hclosed]), fun h => absurd h hmarkup⟩,
      fun h => absurd h (by simp [hclosed])⟩
  have hinv := menuRun_inv evs p0 hinv0 houtside
  obtain ⟨h1, h2, h3, h4⟩ := hinv
  refine ⟨h3, h4, ?_, ?_, ?_, ?_⟩
  · intro e hc hopen
    exact menuStep_opens_only_by_toggle _ e ⟨h1, h2, h3, h4⟩ hc hopen
  · intro hc
    have ht : menuToggleClick (menuRun p0 evs) = openMobileMenu (menuRun p0 evs) := by
      simp [menuToggleClick, toggleMobileMenu, h1, h2, hc]
    simp only [menuStep, ht]
    have hd : documentClick true (openMobileMenu (menuRun p0 evs)) =
        openMobileMenu (menuRun p0 evs) := by simp [documentClick]
    rw [hd]
    exact (openMobileMenu_inv _ h1 h2).2
  · have hk : menuKeydown "Escape" (menuRun p0 evs) = closeMobileMenu (menuRun p0 evs) := by
      simp [menuKeydown, h1, h2]
    simp only [menuStep]
    rw [hk, (overlayKeydown_sameMenu "Escape" _).2.2.2.2]
    exact (closeMobileMenu_inv _ h1 h2).2
  · intro innerWidth hw
    have hr : resizeTimeout innerWidth (menuRun p0 evs) = closeMobileMenu (menuRun p0 evs) := by
      simp [resizeTimeout, mobileBreakpoint, hw]
    simp only [menuStep]
    rw [hr]
    exact (closeMobileMenu_inv _ h1 h2).2

theorem C12_menu_invariant_witness :
    menuRun fullPage [.cardClick widgetCard, .toggleClick true] =
      { fullPage with
        ariaExpanded := some "true"
        mobileNavClasses := ["mobile-nav", "active"]
        mobileMenuOpen := true
        bodyOverflow := "hidden"
        productOverlay := some ["product-overlay", "active"]
        overlayProductName := some "Widget"
        overlayProductPrice := some "$10"
        overlayProductImage := some ("widget.png", "Widget") } ∧
    ((menuRun fullPage [.cardClick widgetCard, .toggleClick true]).mobileMenuOpen = true →
      (menuRun fullPage [.cardClick widgetCard, .toggleClick true]).bodyOverflow = "hidden") ∧
    (menuStep (menuRun fullPage [.cardClick widgetCard, .toggleClick true])
      (.overlayCloseClick false)).mobileMenuOpen = false :=
  ⟨by decide,
    (C12_menu_invariant fullPage [.cardClick widgetCard, .toggleClick true]
      rfl rfl rfl (by decide) (by decide)).2.1,
    by decide⟩

end NextDrop
